import Mathlib

/-
Verification of the self-healing locator engine of the chrome-ext repository.

The definitions below are a shallow embedding of the TypeScript sources:
  * examples/recorder-crx/src/selfHealing.ts      (SelfHealingService)
  * the AI-powered service (AISelfHealingService and SimpleMLModel)
JS numbers are modelled as exact rationals, JS strings as Lean strings,
Maps and Records as association lists, and thrown exceptions as Except.
A JS division whose denominator is zero produces a non-finite value
(NaN or Infinity); such values are modelled as `none` of an Option.
-/

/- ===== basic JS helpers ===== -/

/-- Lookup of a string key in an association list (a JS object / Map read). -/
def alookup {α : Type} (k : String) : List (String × α) → Option α
  | [] => none
  | (k2, v) :: rest => if k2 = k then some v else alookup k rest

/-- Truthiness of an optional JS string: undefined and the empty string are falsy. -/
def truthyStr : Option String → Bool
  | none => false
  | some s => !(s == "")

/-- The JS expression a or-else b on optional strings: b is used when a is falsy. -/
def jsOrStr (a b : Option String) : Option String :=
  if truthyStr a then a else b

/- ===== regex helpers (each models one regex literal from the source) ===== -/

/-- Scan for a run of at least six consecutive decimal digits, carrying the current run length. -/
def digitRunFrom : List Char → Nat → Bool
  | [], _ => false
  | c :: rest, run =>
    if c.isDigit then decide (6 ≤ run + 1) || digitRunFrom rest (run + 1)
    else digitRunFrom rest 0

/-- Test for the regex of six or more consecutive digits used across the source. -/
def hasLongNumericRun (s : String) : Bool := digitRunFrom s.data 0

/-- Does the second character list start with the first? -/
def headMatches : List Char → List Char → Bool
  | [], _ => true
  | _ :: _, [] => false
  | a :: as, b :: bs => a == b && headMatches as bs

/-- Does the haystack contain the needle as a contiguous segment (unanchored search)? -/
def containsSeg (needle : List Char) : List Char → Bool
  | [] => headMatches needle []
  | c :: rest => headMatches needle (c :: rest) || containsSeg needle rest

/-- Unanchored substring test on strings. -/
def strContains (hay needle : String) : Bool := containsSeg needle.data hay.data

/-- Character-wise lowercasing on a character list. -/
def lowerChars (cs : List Char) : List Char := cs.map Char.toLower

/-- Test for the case-insensitive dynamic-identifier keywords regex. -/
def dynamicKeywordTest (s : String) : Bool :=
  let l := lowerChars s.data
  containsSeg "timestamp".data l || containsSeg "uid".data l ||
    containsSeg "uuid".data l || containsSeg "random".data l

/-- Test for the case-insensitive timestamp keyword regex used by feature extraction. -/
def timestampKeywordTest (s : String) : Bool :=
  let l := lowerChars s.data
  containsSeg "timestamp".data l || containsSeg "time".data l ||
    containsSeg "date".data l

/-- Test for the case-insensitive random-identifier keyword regex used by feature extraction. -/
def randomKeywordTest (s : String) : Bool :=
  let l := lowerChars s.data
  containsSeg "random".data l || containsSeg "rand".data l ||
    containsSeg "uuid".data l || containsSeg "guid".data l

/-- Word character of a JS regex: an ASCII letter, a digit, or an underscore. -/
def isWordChar (c : Char) : Bool := c.isAlpha || c.isDigit || c == '_'

/-- Is the first character of the list a word character? -/
def firstIsWord : List Char → Bool
  | [] => false
  | c :: _ => isWordChar c

/-- Match css-, sc- or jss- followed by a word character, at the head of the list. -/
def cssFamilyAt (cs : List Char) : Bool :=
  (headMatches "css-".data cs && firstIsWord (cs.drop 4)) ||
  (headMatches "sc-".data cs && firstIsWord (cs.drop 3)) ||
  (headMatches "jss-".data cs && firstIsWord (cs.drop 4))

/-- Test for the anchored CSS-in-JS class regex of detectUnstableLocator: a leading dot then css-, sc- or jss- then a word character. -/
def cssInJsClassTest (s : String) : Bool :=
  match s.data with
  | '.' :: rest => cssFamilyAt rest
  | _ => false

/-- Match css- followed by a word character, at the head of the list. -/
def cssDashWordAt (cs : List Char) : Bool :=
  headMatches "css-".data cs && firstIsWord (cs.drop 4)

/-- Anchored css-module class regex of feature extraction: className starts with css- then a word character. -/
def cssModuleClassTest (s : String) : Bool := cssDashWordAt s.data

/-- Unanchored scan for css- followed by a word character. -/
def cssDashWordScan : List Char → Bool
  | [] => false
  | c :: rest => cssDashWordAt (c :: rest) || cssDashWordScan rest

/-- Unanchored css-dash-word regex used by isDynamicId. -/
def cssDashWordAnywhere (s : String) : Bool := cssDashWordScan s.data

/-- After an opening bracket, skip the remaining digits and expect a closing bracket. -/
def restDigitsClose : List Char → Bool
  | [] => false
  | c :: rest => if c.isDigit then restDigitsClose rest else c == ']'

/-- After an opening bracket, require at least one digit then a closing bracket. -/
def idxAfterOpen : List Char → Bool
  | [] => false
  | c :: rest => c.isDigit && restDigitsClose rest

/-- Unanchored scan for an opening bracket, one or more digits, and a closing bracket. -/
def arrIdxScan : List Char → Bool
  | [] => false
  | '[' :: rest => idxAfterOpen rest || arrIdxScan rest
  | _ :: rest => arrIdxScan rest

/-- Test for the array-index regex of detectUnstableLocator. -/
def arrayIndexTest (s : String) : Bool := arrIdxScan s.data

/-- Hexadecimal digit, case-insensitively. -/
def isHexChar (c : Char) : Bool := c.isDigit || ('a' ≤ c.toLower && c.toLower ≤ 'f')

/-- Consume exactly n hexadecimal characters, returning the rest of the list. -/
def hexRun : Nat → List Char → Option (List Char)
  | 0, cs => some cs
  | _ + 1, [] => none
  | n + 1, c :: rest => if isHexChar c then hexRun n rest else none

/-- Consume a dash, returning the rest of the list. -/
def dashThen : List Char → Option (List Char)
  | '-' :: rest => some rest
  | _ => none

/-- Match the UUID v4 shape 8-4-4-4-12 at the head of the list. -/
def uuidAt (cs : List Char) : Bool :=
  (hexRun 8 cs >>= dashThen >>= hexRun 4 >>= dashThen >>= hexRun 4 >>= dashThen >>=
    hexRun 4 >>= dashThen >>= hexRun 12).isSome

/-- Unanchored scan for the UUID shape. -/
def uuidScan : List Char → Bool
  | [] => false
  | c :: rest => uuidAt (c :: rest) || uuidScan rest

/-- Test for the case-insensitive UUID regex of feature extraction. -/
def uuidTest (s : String) : Bool := uuidScan s.data

/-- Does the string contain a decimal digit (the has-numeric-text regex)? -/
def anyDigitTest (s : String) : Bool := s.data.any Char.isDigit

/-- Special characters of the has-special-chars regex of feature extraction. -/
def specialChars : List Char :=
  ['!', '@', '#', '$', '%', Char.ofNat 94, '&', '*', '(', ')', ',', '.', '?',
   Char.ofNat 34, ':', Char.ofNat 123, Char.ofNat 125, '|', '<', '>']

/-- Does the string contain one of the special characters? -/
def specialCharsTest (s : String) : Bool := s.data.any (fun c => specialChars.contains c)

/-- Character-wise lowercasing (the String library version does not reduce structurally). -/
def lowerStr (s : String) : String := String.mk (s.data.map Char.toLower)

/-- Drop leading whitespace characters. -/
def dropLeadingWs : List Char → List Char
  | [] => []
  | c :: rest => if c.isWhitespace then dropLeadingWs rest else c :: rest

/-- Whitespace trim at both ends, as the JS trim does. -/
def jsTrim (s : String) : String :=
  String.mk ((dropLeadingWs ((dropLeadingWs s.data).reverse)).reverse)

/-- Characters before the first space: the head of the JS split on a space character. -/
def takeUntilSpace : List Char → List Char
  | [] => []
  | c :: rest => if c = ' ' then [] else c :: takeUntilSpace rest

/-- First class token of a className, as className split on a space, index zero. -/
def firstToken (s : String) : String := String.mk (takeUntilSpace s.data)

/-- Number of maximal nonwhitespace runs, with a flag recording whether a run is open. -/
def countWords : List Char → Bool → Nat
  | [], _ => 0
  | c :: rest, inWord =>
    if c.isWhitespace then countWords rest false
    else (if inWord then 0 else 1) + countWords rest true

/- ===== LocatorFeatures and the simple ML model ===== -/

/-- Feature vector extracted from an element, as declared in the AI service. -/
structure LocatorFeatures where
  elementType : String
  hasId : Bool
  hasTestId : Bool
  hasAriaLabel : Bool
  hasRole : Bool
  hasName : Bool
  hasPlaceholder : Bool
  hasText : Bool
  hasClass : Bool
  textLength : Nat
  textWordCount : Nat
  hasNumericText : Bool
  hasSpecialChars : Bool
  depth : Nat
  siblingCount : Nat
  indexAmongSiblings : Int
  isVisible : Bool
  isClickable : Bool
  hasUniqueColor : Bool
  hasUniqueSize : Bool
  hasNumericId : Bool
  hasCssModuleClass : Bool
  hasTimestamp : Bool
  hasUuid : Bool
  hasRandomId : Bool
deriving DecidableEq, Repr

/-- State of SimpleMLModel: learned weights, bias, and the trained flag. -/
structure MLState where
  weights : List ℚ
  bias : ℚ
  isTrained : Bool
deriving DecidableEq, Repr

/-- Heuristic prediction of SimpleMLModel, used while the model is untrained: a sequence of score updates followed by a clamp to the unit interval. -/
def heuristicPrediction (f : LocatorFeatures) : ℚ :=
  let score : ℚ := 0.5
  let score := if f.hasTestId then score + 0.3 else score
  let score := if f.hasId && !f.hasNumericId then score + 0.25 else score
  let score := if f.hasAriaLabel then score + 0.2 else score
  let score := if f.hasRole then score + 0.15 else score
  let score := if f.hasNumericId then score - 0.3 else score
  let score := if f.hasCssModuleClass then score - 0.2 else score
  let score := if f.hasTimestamp then score - 0.15 else score
  let score := if f.hasUuid then score - 0.25 else score
  let score := if f.isClickable then score + 0.1 else score
  let score := if (f.elementType == "div" || f.elementType == "span")
                  && (!f.hasId && !f.hasTestId && !f.hasClass) then score - 0.2 else score
  max 0 (min 1 score)

/-- Fixed-order numeric encoding of the feature vector used by the trained model. -/
def featuresToVector (f : LocatorFeatures) : List ℚ :=
  [ if f.hasId then 1 else 0,
    if f.hasTestId then 1 else 0,
    if f.hasAriaLabel then 1 else 0,
    if f.hasRole then 1 else 0,
    if f.hasName then 1 else 0,
    if f.hasPlaceholder then 1 else 0,
    if f.hasText then 1 else 0,
    if f.hasClass then 1 else 0,
    (f.textLength : ℚ) / 100,
    (f.textWordCount : ℚ) / 20,
    if f.hasNumericText then 1 else 0,
    if f.hasSpecialChars then 1 else 0,
    (f.depth : ℚ) / 10,
    (f.siblingCount : ℚ) / 10,
    (f.indexAmongSiblings : ℚ) / 10,
    if f.isVisible then 1 else 0,
    if f.isClickable then 1 else 0,
    if f.hasUniqueColor then 1 else 0,
    if f.hasUniqueSize then 1 else 0,
    if f.hasNumericId then 1 else 0,
    if f.hasCssModuleClass then 1 else 0,
    if f.hasTimestamp then 1 else 0,
    if f.hasUuid then 1 else 0,
    if f.hasRandomId then 1 else 0 ]

/-- Linear part of the trained prediction: bias plus the dot product with the weights, a missing weight counting as zero. -/
def mlLinearSum (st : MLState) (f : LocatorFeatures) : ℚ :=
  let v := featuresToVector f
  st.bias + (List.range v.length).foldl (fun acc i => acc + v.getD i 0 * st.weights.getD i 0) 0

/-- Prediction of SimpleMLModel. The sigmoid applied on the trained branch uses real exponentiation, which is not rational-computable, so it is supplied as a parameter; the untrained branch is the deterministic heuristic. -/
def mlPredict (sigmoid : ℚ → ℚ) (st : MLState) (f : LocatorFeatures) : ℚ :=
  if st.isTrained then sigmoid (mlLinearSum st f) else heuristicPrediction f

/- ===== unstable-pattern detector (SelfHealingService.detectUnstableLocator) ===== -/

/-- Result of detectUnstableLocator. -/
structure UnstableResult where
  isUnstable : Bool
  reason : Option String
  aiDetected : Option Bool
deriving DecidableEq, Repr

/-- Unstable-locator detection: the four regex patterns are tried in order and the first match returns its reason; only when none match and AI is enabled with an available feature vector does the AI fallback run. The optional feature vector stands for a successful AI prediction on a supplied element. -/
def detectUnstableLocator (aiEnabled : Bool) (locator : String)
    (elementFeatures : Option LocatorFeatures) : UnstableResult :=
  if hasLongNumericRun locator then
    ⟨true, some "Contains long numeric ID (likely dynamic)", some false⟩
  else if cssInJsClassTest locator then
    ⟨true, some "CSS-in-JS class (changes on build)", some false⟩
  else if dynamicKeywordTest locator then
    ⟨true, some "Contains dynamic identifier", some false⟩
  else if arrayIndexTest locator then
    ⟨true, some "Uses array index (fragile)", some false⟩
  else if aiEnabled then
    match elementFeatures with
    | some f =>
      if f.hasNumericId || f.hasCssModuleClass || f.hasTimestamp || f.hasUuid
          || f.hasRandomId then
        ⟨true, some "AI-detected dynamic pattern", some true⟩
      else ⟨false, none, none⟩
    | none => ⟨false, none, none⟩
  else ⟨false, none, none⟩

/- ===== theorems for C4 and C5 ===== -/

/-- Helper: pushing a conditional additive update out of an if. -/
theorem addStep (b : Bool) (s x : ℚ) :
    (if b then s + x else s) = s + (if b then x else 0) := by
  cases b <;> simp

/-- Helper: pushing a conditional subtractive update out of an if. -/
theorem subStep (b : Bool) (s x : ℚ) :
    (if b then s - x else s) = s - (if b then x else 0) := by
  cases b <;> simp

/-- C4: while the model is untrained, predict returns the deterministic heuristic: start at 0.5; +0.3 if hasTestId; +0.25 if hasId and not hasNumericId; +0.2 if hasAriaLabel; +0.15 if hasRole; −0.3 if hasNumericId; −0.2 if hasCssModuleClass; −0.15 if hasTimestamp; −0.25 if hasUuid; +0.1 if isClickable; −0.2 if the element type is div or span and none of hasId, hasTestId, hasClass hold; clamped to the unit interval. -/
theorem mlPredict_untrained_heuristic (sigmoid : ℚ → ℚ) (st : MLState)
    (f : LocatorFeatures) (h : st.isTrained = false) :
    mlPredict sigmoid st f =
      max 0 (min 1 ((0.5 : ℚ)
        + (if f.hasTestId then 0.3 else 0)
        + (if f.hasId && !f.hasNumericId then 0.25 else 0)
        + (if f.hasAriaLabel then 0.2 else 0)
        + (if f.hasRole then 0.15 else 0)
        - (if f.hasNumericId then 0.3 else 0)
        - (if f.hasCssModuleClass then 0.2 else 0)
        - (if f.hasTimestamp then 0.15 else 0)
        - (if f.hasUuid then 0.25 else 0)
        + (if f.isClickable then 0.1 else 0)
        - (if (f.elementType == "div" || f.elementType == "span")
              && (!f.hasId && !f.hasTestId && !f.hasClass) then 0.2 else 0))) := by
  simp only [mlPredict, h, Bool.false_eq_true, if_false]
  simp only [heuristicPrediction, addStep, subStep]

/-- Witness for C4: a concrete untrained state and feature vector where the heuristic formula evaluates to 0.9. -/
theorem mlPredict_untrained_heuristic_witness :
    (MLState.mk [] 0 false).isTrained = false ∧
    mlPredict (fun q => q) (MLState.mk [] 0 false)
      (LocatorFeatures.mk "button" false true false false false false false false
        0 0 false false 0 0 0 true true false false false false false false false)
      = max 0 (min 1 ((0.5 : ℚ) + 0.3 + 0 + 0 + 0 - 0 - 0 - 0 - 0 + 0.1 - 0)) := by
  refine ⟨rfl, ?_⟩
  have h := mlPredict_untrained_heuristic (fun q => q) (MLState.mk [] 0 false)
    (LocatorFeatures.mk "button" false true false false false false false false
      0 0 false false 0 0 0 true true false false false false false false false) rfl
  rw [h]
  norm_num

/-- C5: any locator string containing six or more consecutive digits is reported unstable with the long-numeric-id reason, whatever the element context and whatever other patterns also match, because that pattern is checked first. -/
theorem detectUnstable_longNumeric (aiEnabled : Bool) (locator : String)
    (features : Option LocatorFeatures) (h : hasLongNumericRun locator = true) :
    detectUnstableLocator aiEnabled locator features =
      ⟨true, some "Contains long numeric ID (likely dynamic)", some false⟩ := by
  simp only [detectUnstableLocator, h, if_true]

/-- Witness for C5: the locator .btn-582913 contains a six-digit run and is reported unstable with the numeric-id reason even with AI enabled and an all-clear feature vector supplied. -/
theorem detectUnstable_longNumeric_witness :
    hasLongNumericRun ".btn-582913" = true ∧
    detectUnstableLocator true ".btn-582913"
        (some (LocatorFeatures.mk "button" false false false false false false false
          false 0 0 false false 0 0 0 true true false false false false false false
          false)) =
      ⟨true, some "Contains long numeric ID (likely dynamic)", some false⟩ :=
  ⟨by decide, detectUnstable_longNumeric true ".btn-582913" _ (by decide)⟩

/- ===== SelfHealingService: strategies and confidence scoring ===== -/

/-- Locator strategy entry: kind, priority rank, stability prior. -/
structure Strategy where
  type : String
  priority : Int
  stability : ℚ
deriving DecidableEq, Repr

/-- Default strategy table of SelfHealingService.locatorStrategies. -/
def defaultStrategies : List Strategy :=
  [⟨"testid", 1, 0.95⟩, ⟨"id", 2, 0.90⟩, ⟨"aria", 3, 0.85⟩, ⟨"role", 4, 0.80⟩,
   ⟨"name", 5, 0.75⟩, ⟨"placeholder", 6, 0.70⟩, ⟨"text", 7, 0.65⟩, ⟨"css", 8, 0.50⟩,
   ⟨"xpath", 9, 0.40⟩]

/-- User override of the strategy table: the supplied entries are installed sorted by ascending priority, with no validation of the stability values. -/
def updateStrategyPriority (strategies : List Strategy) : List Strategy :=
  strategies.mergeSort (fun a b => a.priority ≤ b.priority)

/-- Element descriptor consumed by SelfHealingService (tag, optional id and className, attribute record). -/
structure ElementInfo where
  tag : String
  id : Option String
  className : Option String
  attributes : List (String × String)
deriving DecidableEq, Repr

/-- Stability prior for a strategy kind. The source reads strategy.stability with a JS or-else defaulting to 0.5, so an unknown kind and a prior of exactly 0 (falsy) both give 0.5. -/
def stabilityFor (strategies : List Strategy) (ty : String) : ℚ :=
  match strategies.find? (fun s => s.type == ty) with
  | some s => if s.stability = 0 then 0.5 else s.stability
  | none => 0.5

/-- Uniqueness score of calculateConfidence: 0.5 adjusted by strategy kind, generic-tag tokens in the locator, and attribute presence, then clamped to the unit interval. -/
def uniquenessScoreFn (ty locator : String) (e : ElementInfo) : ℚ :=
  let u : ℚ := 0.5
  let u := if ty == "id" || ty == "testid" then u + 0.3 else u
  let u := if ty == "aria" || ty == "role" then u + 0.2 else u
  let u := if strContains locator "div" || strContains locator "span" then u - 0.2 else u
  let u := if truthyStr (alookup "data-testid" e.attributes) || truthyStr e.id
           then u + 0.2 else u
  min 1 (max 0 u)

/-- Confidence scorer of SelfHealingService.calculateConfidence. The base is the stability and uniqueness blend; when AI is enabled the attempted model prediction either blends in (ok) or, if the prediction path threw, is caught and the base confidence is returned unchanged. No clamp is applied to the result. -/
def calculateConfidence (strategies : List Strategy) (ty locator : String)
    (e : ElementInfo) (aiEnabled : Bool) (aiResult : Except String ℚ) : ℚ :=
  let stabilityScore := stabilityFor strategies ty
  let uniquenessScore := uniquenessScoreFn ty locator e
  let confidence := stabilityScore * 0.6 + uniquenessScore * 0.4
  if aiEnabled then
    match aiResult with
    | .ok p => confidence * 0.7 + p * 0.3
    | .error _ => confidence
  else confidence

/- ===== theorems for C3 and C9 ===== -/

/-- C3 counterexample: updateStrategyPriority accepts a prior with stability 2 without validation, and calculateConfidence then returns 1.42, strictly above 1, so the claimed unit-interval bound fails for user-overridden priors. -/
theorem calculateConfidence_exceeds_one :
    calculateConfidence (updateStrategyPriority [⟨"testid", 1, 2⟩]) "testid"
      "[data-testid=\"submit\"]" ⟨"button", none, none, [("data-testid", "submit")]⟩
      true (.ok 1) = 1.42 ∧
    ¬ calculateConfidence (updateStrategyPriority [⟨"testid", 1, 2⟩]) "testid"
      "[data-testid=\"submit\"]" ⟨"button", none, none, [("data-testid", "submit")]⟩
      true (.ok 1) ≤ 1 := by
  have h1 : stabilityFor (updateStrategyPriority [⟨"testid", 1, 2⟩]) "testid" = 2 := by
    norm_num [updateStrategyPriority, stabilityFor, List.find?]
  have hdiv : strContains "[data-testid=\"submit\"]" "div" = false := by decide
  have hspan : strContains "[data-testid=\"submit\"]" "span" = false := by decide
  have h2 : uniquenessScoreFn "testid" "[data-testid=\"submit\"]"
      ⟨"button", none, none, [("data-testid", "submit")]⟩ = 1 := by
    simp [uniquenessScoreFn, hdiv, hspan, truthyStr, alookup]
    norm_num
  constructor <;> norm_num [calculateConfidence, h1, h2]

/-- C3 as amended: whenever every (possibly user-overridden) prior stability lies in the unit interval and the model prediction, when one is obtained, lies in the unit interval, the confidence returned by calculateConfidence lies in the unit interval, including after the 0.7 and 0.3 blend. -/
theorem calculateConfidence_bounds (strategies : List Strategy) (ty locator : String)
    (e : ElementInfo) (aiEnabled : Bool) (aiResult : Except String ℚ)
    (hs : ∀ s ∈ strategies, 0 ≤ s.stability ∧ s.stability ≤ 1)
    (hp : ∀ p, aiResult = .ok p → 0 ≤ p ∧ p ≤ 1) :
    0 ≤ calculateConfidence strategies ty locator e aiEnabled aiResult ∧
    calculateConfidence strategies ty locator e aiEnabled aiResult ≤ 1 := by
  have hstab : 0 ≤ stabilityFor strategies ty ∧ stabilityFor strategies ty ≤ 1 := by
    unfold stabilityFor
    cases hfind : strategies.find? (fun s => s.type == ty) with
    | none => norm_num
    | some s =>
      have hmem : s ∈ strategies := List.mem_of_find?_eq_some hfind
      have := hs s hmem
      by_cases h0 : s.stability = 0
      · simp [h0]; norm_num
      · simp [h0]; exact this
  have huniq : 0 ≤ uniquenessScoreFn ty locator e ∧ uniquenessScoreFn ty locator e ≤ 1 := by
    unfold uniquenessScoreFn
    constructor
    · exact le_min (by norm_num) (le_max_left 0 _)
    · exact min_le_left 1 _
  obtain ⟨hs0, hs1⟩ := hstab
  obtain ⟨hu0, hu1⟩ := huniq
  have hbase0 : 0 ≤ stabilityFor strategies ty * 0.6 + uniquenessScoreFn ty locator e * 0.4 := by
    nlinarith
  have hbase1 : stabilityFor strategies ty * 0.6 + uniquenessScoreFn ty locator e * 0.4 ≤ 1 := by
    nlinarith
  unfold calculateConfidence
  cases aiEnabled with
  | false => simpa using ⟨hbase0, hbase1⟩
  | true =>
    cases aiResult with
    | error msg => simpa using ⟨hbase0, hbase1⟩
    | ok p =>
      obtain ⟨hp0, hp1⟩ := hp p rfl
      constructor
      · simp only [if_true]; nlinarith
      · simp only [if_true]; nlinarith

/-- Witness for the amended C3: with the default strategy table, a testid locator, and a model prediction of 0.9, the confidence lies in the unit interval. -/
theorem calculateConfidence_bounds_witness :
    0 ≤ calculateConfidence defaultStrategies "testid" "[data-testid=\"submit\"]"
        ⟨"button", none, none, [("data-testid", "submit")]⟩ true (.ok 0.9) ∧
    calculateConfidence defaultStrategies "testid" "[data-testid=\"submit\"]"
        ⟨"button", none, none, [("data-testid", "submit")]⟩ true (.ok 0.9) ≤ 1 :=
  calculateConfidence_bounds defaultStrategies "testid" "[data-testid=\"submit\"]"
    ⟨"button", none, none, [("data-testid", "submit")]⟩ true (.ok 0.9)
    (by
      intro s hs
      simp [defaultStrategies] at hs
      rcases hs with rfl | rfl | rfl | rfl | rfl | rfl | rfl | rfl | rfl <;> norm_num)
    (fun p h => by cases h; norm_num)

/-- C9: when obtaining the model prediction fails, the failure is caught inside the scorer and the heuristic-only confidence, the stability and uniqueness blend, is returned; the result is the same as with AI disabled, so a model failure never changes or aborts scoring. -/
theorem calculateConfidence_model_failure (strategies : List Strategy)
    (ty locator : String) (e : ElementInfo) (msg : String) :
    calculateConfidence strategies ty locator e true (.error msg)
      = stabilityFor strategies ty * 0.6 + uniquenessScoreFn ty locator e * 0.4 ∧
    calculateConfidence strategies ty locator e true (.error msg)
      = calculateConfidence strategies ty locator e false (.error msg) :=
  ⟨rfl, rfl⟩

/-- Witness for C9: a concrete scoring call whose model prediction threw returns the heuristic-only confidence. -/
theorem calculateConfidence_model_failure_witness :
    calculateConfidence defaultStrategies "css" ".btn" ⟨"div", none, some "btn", []⟩
        true (.error "model threw")
      = stabilityFor defaultStrategies "css" * 0.6 +
          uniquenessScoreFn "css" ".btn" ⟨"div", none, some "btn", []⟩ * 0.4 :=
  (calculateConfidence_model_failure defaultStrategies "css" ".btn"
    ⟨"div", none, some "btn", []⟩ "model threw").1

/- ===== SelfHealingService: candidate generation (findAlternativeLocator) ===== -/

/-- Candidate produced by the generation loop of findAlternativeLocator: a locator string and its strategy kind. Confidence is attached to each candidate after generation and does not change which candidates are present. -/
structure GenCandidate where
  locator : String
  type : String
deriving DecidableEq, Repr

/-- Candidate generation for one strategy kind, translated from the switch inside findAlternativeLocator. Attribute reads are JS-truthy tested, the id kind is suppressed when the id has a six-digit run, the css kind when the className has one, the text kind is skipped by the source, and xpath always fires. -/
def genCandidate (ty : String) (e : ElementInfo) : Option GenCandidate :=
  match ty with
  | "id" =>
    match e.id with
    | some i => if !(i == "") && !hasLongNumericRun i then some ⟨"#" ++ i, "id"⟩ else none
    | none => none
  | "testid" =>
    let testId := jsOrStr (alookup "data-testid" e.attributes)
      (alookup "data-test" e.attributes)
    if truthyStr testId then
      some ⟨"[data-testid=\"" ++ testId.getD "" ++ "\"]", "testid"⟩
    else none
  | "aria" =>
    match alookup "aria-label" e.attributes with
    | some v => if !(v == "") then some ⟨"[aria-label=\"" ++ v ++ "\"]", "aria"⟩ else none
    | none => none
  | "role" =>
    match alookup "role" e.attributes with
    | some v => if !(v == "") then some ⟨"[role=\"" ++ v ++ "\"]", "role"⟩ else none
    | none => none
  | "name" =>
    match alookup "name" e.attributes with
    | some v => if !(v == "") then some ⟨"[name=\"" ++ v ++ "\"]", "name"⟩ else none
    | none => none
  | "placeholder" =>
    match alookup "placeholder" e.attributes with
    | some v =>
      if !(v == "") then some ⟨"[placeholder=\"" ++ v ++ "\"]", "placeholder"⟩ else none
    | none => none
  | "text" => none
  | "css" =>
    match e.className with
    | some cl =>
      if !(cl == "") && !hasLongNumericRun cl then
        some ⟨"." ++ firstToken cl, "css"⟩
      else none
    | none => none
  | "xpath" => some ⟨"//" ++ e.tag, "xpath"⟩
  | _ => none

/-- Candidate list assembled by findAlternativeLocator: one optional candidate per configured strategy kind, in strategy-table order. -/
def findAlternativeLocators (strategies : List Strategy) (e : ElementInfo) :
    List GenCandidate :=
  (strategies.map (fun s => s.type)).filterMap (fun ty => genCandidate ty e)

/-- Helper: a generated candidate always carries the strategy kind it was generated for. -/
theorem genCandidate_sets_type (ty : String) (e : ElementInfo) (c : GenCandidate)
    (h : genCandidate ty e = some c) : c.type = ty := by
  simp only [genCandidate] at h
  repeat' split at h
  all_goals try exact Option.noConfusion h
  all_goals (injection h with h2; rw [← h2])

/- ===== theorems for C6 ===== -/

/-- C6 counterexample: an element whose data-testid attribute is present but has the empty string as value. The attribute is present, yet the generated list contains no testid-strategy candidate, because the source applies a JS truthiness test that treats the empty string as absent. -/
theorem findAlternative_testid_empty_attr :
    alookup "data-testid"
      (ElementInfo.mk "button" (some "submit-12345678") none [("data-testid", "")]).attributes
      = some "" ∧
    (findAlternativeLocators defaultStrategies
        (ElementInfo.mk "button" (some "submit-12345678") none [("data-testid", "")])).all
      (fun c => !(c.type == "testid")) = true := by
  constructor
  · rfl
  · decide

/-- C6 as amended: for an element whose id has a six-or-more-digit run, the generated list contains no id-strategy candidate; and whenever the JS expression data-testid or-else data-test is truthy, yielding the nonempty string v (data-testid when nonempty, otherwise data-test), the generated list contains the bracketed testid-strategy candidate built from v. -/
theorem findAlternative_numeric_id_filter (e : ElementInfo) (i : String)
    (hid : e.id = some i) (hnum : hasLongNumericRun i = true) :
    (∀ c ∈ findAlternativeLocators defaultStrategies e, c.type ≠ "id") ∧
    (∀ v, jsOrStr (alookup "data-testid" e.attributes) (alookup "data-test" e.attributes)
        = some v → v ≠ "" →
      GenCandidate.mk ("[data-testid=\"" ++ v ++ "\"]") "testid"
        ∈ findAlternativeLocators defaultStrategies e) := by
  constructor
  · intro c hc hcid
    obtain ⟨ty, hty, hgen⟩ := List.mem_filterMap.mp hc
    have htyc := genCandidate_sets_type ty e c hgen
    rw [hcid] at htyc
    rw [← htyc] at hgen
    have : genCandidate "id" e = none := by
      simp [genCandidate, hid, hnum]
    simp [this] at hgen
  · intro v hv hvne
    have hgt : genCandidate "testid" e =
        some ⟨"[data-testid=\"" ++ v ++ "\"]", "testid"⟩ := by
      simp [genCandidate, hv, truthyStr, hvne]
    refine List.mem_filterMap.mpr ⟨"testid", ?_, hgt⟩
    simp [defaultStrategies]

/-- Witness for the amended C6, first at end-to-end scenario A (the button with id submit-12345678 and data-testid submit-btn gets the testid candidate and no id candidate), then at an element carrying only a data-test attribute, whose value still becomes the data-testid-bracketed candidate through the or-else fallback. -/
theorem findAlternative_numeric_id_filter_witness :
    hasLongNumericRun "submit-12345678" = true ∧
    GenCandidate.mk "[data-testid=\"submit-btn\"]" "testid"
      ∈ findAlternativeLocators defaultStrategies
          (ElementInfo.mk "button" (some "submit-12345678") none
            [("data-testid", "submit-btn")]) ∧
    (∀ c ∈ findAlternativeLocators defaultStrategies
        (ElementInfo.mk "button" (some "submit-12345678") none
          [("data-testid", "submit-btn")]), c.type ≠ "id") ∧
    GenCandidate.mk "[data-testid=\"fallback-x\"]" "testid"
      ∈ findAlternativeLocators defaultStrategies
          (ElementInfo.mk "input" (some "field-99999999") none
            [("data-test", "fallback-x")]) := by
  refine ⟨by decide, ?_, ?_, ?_⟩
  · exact (findAlternative_numeric_id_filter
      (ElementInfo.mk "button" (some "submit-12345678") none
        [("data-testid", "submit-btn")]) "submit-12345678" rfl (by decide)).2
      "submit-btn" rfl (by decide)
  · exact (findAlternative_numeric_id_filter
      (ElementInfo.mk "button" (some "submit-12345678") none
        [("data-testid", "submit-btn")]) "submit-12345678" rfl (by decide)).1
  · exact (findAlternative_numeric_id_filter
      (ElementInfo.mk "input" (some "field-99999999") none
        [("data-test", "fallback-x")]) "field-99999999" rfl (by decide)).2
      "fallback-x" rfl (by decide)

/- ===== SelfHealingService: suggestion store and cleanup ===== -/

/-- Status of a healing suggestion; the source union type has exactly these three values. -/
inductive SuggestionStatus
  | pending
  | approved
  | rejected
deriving DecidableEq, Repr

/-- Healing suggestion stored by SelfHealingService. The optional bookkeeping fields of the source (lastUsed, successCount, failureCount, reason, aiEnhanced, visualSimilarity) are never read by cleanup and are omitted here. -/
structure HealingSuggestion where
  id : String
  brokenLocator : String
  validLocator : String
  confidence : ℚ
  stability : ℚ
  status : SuggestionStatus
  createdAt : Int
deriving DecidableEq, Repr

/-- Removal test of cleanupSuggestions: a rejected suggestion created strictly before the cutoff date. Dates compare as their numeric timestamps. -/
def shouldRemoveSuggestion (cutoff : Int) (s : HealingSuggestion) : Bool :=
  s.status == .rejected && decide (s.createdAt < cutoff)

/-- Total number of suggestions stored across all script ids. -/
def totalSuggestions (st : List (String × List HealingSuggestion)) : Nat :=
  (st.map (fun en => en.2.length)).sum

/-- Auto-cleanup of old suggestions: every entry of the suggestions Map keeps exactly the suggestions that should not be removed, and the number of removed suggestions, accumulated by the source inside its filter callback, is returned. -/
def cleanupSuggestions (cutoff : Int) (st : List (String × List HealingSuggestion)) :
    Nat × List (String × List HealingSuggestion) :=
  ((st.map (fun en => en.2.countP (shouldRemoveSuggestion cutoff))).sum,
   st.map (fun en => (en.1, en.2.filter (fun s => !shouldRemoveSuggestion cutoff s))))

/- ===== theorems for C7 ===== -/

/-- Helper: any pair drawn from the zip of a list with its image under f relates by f. -/
theorem zip_map_rel {α β : Type} (f : α → β) (l : List α) :
    ∀ p ∈ l.zip (l.map f), p.2 = f p.1 := by
  induction l with
  | nil => intro p h; cases h
  | cons a t ih =>
    intro p h
    rw [List.map_cons, List.zip_cons_cons] at h
    rcases List.mem_cons.mp h with rfl | h2
    · rfl
    · exact ih p h2

/-- Helper: the removed count plus the retained length recovers the original length. -/
theorem countP_filter_split {α : Type} (p : α → Bool) (l : List α) :
    l.countP p + (l.filter (fun a => !p a)).length = l.length := by
  induction l with
  | nil => rfl
  | cons a t ih =>
    cases h : p a <;> simp [List.countP_cons, List.filter_cons, h] <;> omega

/-- Helper: a retained suggestion is exactly an original one that is not rejected-and-old. -/
theorem keepSuggestion_iff (cutoff : Int) (l : List HealingSuggestion)
    (s : HealingSuggestion) :
    s ∈ l.filter (fun x => !shouldRemoveSuggestion cutoff x) ↔
      s ∈ l ∧ ¬(s.status = .rejected ∧ s.createdAt < cutoff) := by
  rw [List.mem_filter]
  constructor
  · rintro ⟨hm, hk⟩
    refine ⟨hm, ?_⟩
    simp only [shouldRemoveSuggestion, Bool.not_eq_true', Bool.and_eq_false_imp,
      beq_iff_eq] at hk
    rintro ⟨hst, hlt⟩
    have := hk hst
    simp [hlt] at this
  · rintro ⟨hm, hn⟩
    refine ⟨hm, ?_⟩
    simp only [shouldRemoveSuggestion, Bool.not_eq_true', Bool.and_eq_false_imp,
      beq_iff_eq]
    intro hst
    by_cases hlt : s.createdAt < cutoff
    · exact absurd ⟨hst, hlt⟩ hn
    · simp [hlt]

/-- C7: cleanup removes exactly the rejected suggestions created before the cutoff: the Map keeps its entries, each entry retains an in-order sublist of its suggestions, a suggestion survives iff it is not rejected-and-older-than-cutoff (so approved and pending suggestions are never removed and stay unchanged), and the returned count plus the retained total equals the original total. -/
theorem cleanupSuggestions_exact (cutoff : Int)
    (st : List (String × List HealingSuggestion)) :
    ((cleanupSuggestions cutoff st).2.length = st.length) ∧
    (∀ pr ∈ st.zip (cleanupSuggestions cutoff st).2,
      pr.2.1 = pr.1.1 ∧ pr.2.2.Sublist pr.1.2 ∧
      (∀ s, s ∈ pr.2.2 ↔
        s ∈ pr.1.2 ∧ ¬(s.status = .rejected ∧ s.createdAt < cutoff))) ∧
    (cleanupSuggestions cutoff st).1 +
      totalSuggestions (cleanupSuggestions cutoff st).2 = totalSuggestions st := by
  refine ⟨by simp [cleanupSuggestions], ?_, ?_⟩
  · intro pr hpr
    have hmap : (cleanupSuggestions cutoff st).2 =
        st.map (fun en => (en.1, en.2.filter (fun s => !shouldRemoveSuggestion cutoff s))) :=
      rfl
    rw [hmap] at hpr
    have hrel := zip_map_rel
      (fun en => (en.1, en.2.filter (fun s => !shouldRemoveSuggestion cutoff s))) st pr hpr
    rw [hrel]
    exact ⟨rfl, List.filter_sublist _, fun s => keepSuggestion_iff cutoff pr.1.2 s⟩
  · simp only [cleanupSuggestions, totalSuggestions]
    induction st with
    | nil => rfl
    | cons en t ih =>
      simp only [List.map_cons, List.sum_cons]
      have hsplit := countP_filter_split (shouldRemoveSuggestion cutoff) en.2
      omega

/-- Witness for C7: on a concrete three-suggestion store with cutoff 100, the returned count plus the retained total equals the original total, and the approved suggestion survives. -/
theorem cleanupSuggestions_exact_witness :
    (cleanupSuggestions 100
        [("s1", [HealingSuggestion.mk "a" "b" "c" 0.5 0.8 .rejected 10,
                 HealingSuggestion.mk "d" "e" "f" 0.5 0.8 .approved 10,
                 HealingSuggestion.mk "g" "h" "i" 0.5 0.8 .pending 200])]).1 +
      totalSuggestions (cleanupSuggestions 100
        [("s1", [HealingSuggestion.mk "a" "b" "c" 0.5 0.8 .rejected 10,
                 HealingSuggestion.mk "d" "e" "f" 0.5 0.8 .approved 10,
                 HealingSuggestion.mk "g" "h" "i" 0.5 0.8 .pending 200])]).2 =
      totalSuggestions
        [("s1", [HealingSuggestion.mk "a" "b" "c" 0.5 0.8 .rejected 10,
                 HealingSuggestion.mk "d" "e" "f" 0.5 0.8 .approved 10,
                 HealingSuggestion.mk "g" "h" "i" 0.5 0.8 .pending 200])] :=
  (cleanupSuggestions_exact 100
    [("s1", [HealingSuggestion.mk "a" "b" "c" 0.5 0.8 .rejected 10,
             HealingSuggestion.mk "d" "e" "f" 0.5 0.8 .approved 10,
             HealingSuggestion.mk "g" "h" "i" 0.5 0.8 .pending 200])]).2.2

/- ===== AISelfHealingService: visual similarity comparator ===== -/

/-- Visual fingerprint of an element, as declared in the AI service. Fingerprint creation reads the live DOM and a canvas, so fingerprints are inputs here; comparing an element with itself compares two identical fingerprints. -/
structure VisualFingerprint where
  width : ℚ
  height : ℚ
  backgroundColor : String
  color : String
  fontSize : String
  fontFamily : String
  fontWeight : String
  border : String
  borderRadius : String
  x : ℚ
  y : ℚ
  zIndex : Int
  text : String
  textHash : String
  visualHash : String
deriving DecidableEq, Repr

/-- JS division with a finiteness guard: a zero denominator yields a non-finite JS number (NaN or Infinity), modelled as none. -/
def jsDiv (a b : ℚ) : Option ℚ := if b = 0 then none else some (a / b)

/-- Number of positions at which the two hash strings agree; a position beyond the end of the shorter hash compares a character against undefined and never matches. -/
def matchCount : List Char → List Char → Nat
  | a :: as, b :: bs => (if a == b then 1 else 0) + matchCount as bs
  | _, _ => 0

/-- Hash similarity of compareHashes: the character-wise match ratio over the longer length. Two empty hashes divide zero by zero. -/
def compareHashes (h1 h2 : String) : Option ℚ :=
  jsDiv (matchCount h1.data h2.data : ℚ) (max h1.data.length h2.data.length : ℚ)

/-- Size similarity: one minus the average of the relative width and height differences; a zero maximum dimension divides zero by zero. -/
def calculateSizeSimilarity (fp1 fp2 : VisualFingerprint) : Option ℚ := do
  let widthDiff ← jsDiv |fp1.width - fp2.width| (max fp1.width fp2.width)
  let heightDiff ← jsDiv |fp1.height - fp2.height| (max fp1.height fp2.height)
  pure (1 - (widthDiff + heightDiff) / 2)

/-- Style similarity: the fraction of color, backgroundColor and fontFamily that match exactly. -/
def calculateStyleSimilarity (fp1 fp2 : VisualFingerprint) : ℚ :=
  ((if fp1.color = fp2.color then (1 : ℚ) else 0)
    + (if fp1.backgroundColor = fp2.backgroundColor then 1 else 0)
    + (if fp1.fontFamily = fp2.fontFamily then 1 else 0)) / 3

/-- Position similarity: one minus the euclidean distance normalized by the 1920 by 1080 screen diagonal. Math.sqrt is not rational-computable and is supplied as the parameter rsqrt. -/
def calculatePositionSimilarity (rsqrt : ℚ → ℚ) (fp1 fp2 : VisualFingerprint) :
    Option ℚ :=
  let distance := rsqrt ((fp1.x - fp2.x) ^ 2 + (fp1.y - fp2.y) ^ 2)
  let maxDistance := rsqrt ((1920 : ℚ) ^ 2 + (1080 : ℚ) ^ 2)
  (jsDiv distance maxDistance).map (fun q => 1 - q)

/-- Levenshtein distance as computed by the dynamic-programming matrix of calculateTextSimilarity; this recurrence is the one the matrix fills. -/
def levDistance : List Char → List Char → Nat
  | [], t => t.length
  | a :: as, [] => (a :: as).length
  | a :: as, b :: bs =>
      min (levDistance as (b :: bs) + 1)
        (min (levDistance (a :: as) bs + 1)
          (levDistance as bs + (if a == b then 0 else 1)))

/-- Text similarity: one minus the normalized Levenshtein distance, and 1 for two empty strings. -/
def calculateTextSimilarity (t1 t2 : String) : ℚ :=
  let distance := levDistance t2.data t1.data
  let maxLength := max t1.length t2.length
  if maxLength > 0 then 1 - (distance : ℚ) / (maxLength : ℚ) else 1

/-- Blend of compareVisualSimilarity: the five weighted sub-scores are accumulated together with their weights, and the weighted sum is divided by the accumulated factors; a non-finite sub-score (zero-sized fingerprint, two empty hashes) makes the JS result non-finite, modelled as none. -/
def compareVisualSimilarity (rsqrt : ℚ → ℚ) (fp1 fp2 : VisualFingerprint) : Option ℚ := do
  let hashSimilarity ← compareHashes fp1.visualHash fp2.visualHash
  let sizeSimilarity ← calculateSizeSimilarity fp1 fp2
  let styleSimilarity := calculateStyleSimilarity fp1 fp2
  let positionSimilarity ← calculatePositionSimilarity rsqrt fp1 fp2
  let textSimilarity := calculateTextSimilarity fp1.text fp2.text
  let similarity := hashSimilarity * 0.4 + sizeSimilarity * 0.2 + styleSimilarity * 0.2
      + positionSimilarity * 0.1 + textSimilarity * 0.1
  let factors : ℚ := 0.4 + 0.2 + 0.2 + 0.1 + 0.1
  if factors > 0 then pure (similarity / factors) else pure 0

/- ===== theorems for C8 ===== -/

/-- Helper: a hash string matches itself at every position. -/
theorem matchCount_self (l : List Char) : matchCount l l = l.length := by
  induction l with
  | nil => rfl
  | cons a t ih =>
    simp [matchCount, ih]
    omega

/-- Helper: the Levenshtein distance of a string to itself is zero. -/
theorem levDistance_self (l : List Char) : levDistance l l = 0 := by
  induction l with
  | nil => simp [levDistance]
  | cons a t ih =>
    rw [levDistance, ih]
    simp

/-- C8 counterexample: an element whose bounding box is zero-sized (as any hidden element is) compared with itself: the relative size difference divides zero by zero, the JS result is NaN, and the comparison does not return 1.0 within any tolerance. -/
theorem compareVisual_zero_size_nan :
    compareVisualSimilarity (fun q => if q = 0 then 0 else 1)
      (VisualFingerprint.mk 0 0 "" "" "" "" "" "" "" 0 0 0 "" "0" "abc")
      (VisualFingerprint.mk 0 0 "" "" "" "" "" "" "" 0 0 0 "" "0" "abc") = none := by
  have hhash : compareHashes "abc" "abc" = some 1 := by
    have h1 : matchCount "abc".data "abc".data = 3 := by decide
    have h2 : "abc".data.length = 3 := by decide
    rw [compareHashes, h1, h2, max_self, jsDiv]
    norm_num
  have hsize : calculateSizeSimilarity
      (VisualFingerprint.mk 0 0 "" "" "" "" "" "" "" 0 0 0 "" "0" "abc")
      (VisualFingerprint.mk 0 0 "" "" "" "" "" "" "" 0 0 0 "" "0" "abc") = none := by
    simp [calculateSizeSimilarity, jsDiv]
  simp [compareVisualSimilarity, hhash, hsize]

/-- C8 as amended: for any fingerprint with positive width and height and a nonempty visual hash (hashes produced by the source are never empty), comparing it with itself returns exactly 1, the weighted blend of the five sub-scores divided by the total weight 1.0; zero-sized fingerprints instead produce NaN. The square-root parameter need only send 0 to 0 and keep the screen diagonal nonzero. -/
theorem compareVisual_self_one (rsqrt : ℚ → ℚ) (fp : VisualFingerprint)
    (h0 : rsqrt 0 = 0) (hD : rsqrt ((1920 : ℚ) ^ 2 + (1080 : ℚ) ^ 2) ≠ 0)
    (hw : 0 < fp.width) (hh : 0 < fp.height) (hhash : fp.visualHash.data ≠ []) :
    compareVisualSimilarity rsqrt fp fp = some 1 := by
  have hlen : fp.visualHash.data.length ≠ 0 := by
    intro hcon
    exact hhash (List.length_eq_zero.mp hcon)
  have hhashes : compareHashes fp.visualHash fp.visualHash = some 1 := by
    rw [compareHashes, matchCount_self, max_self, jsDiv]
    rw [if_neg (by exact_mod_cast hlen)]
    rw [div_self (by exact_mod_cast hlen)]
  have hsize : calculateSizeSimilarity fp fp = some 1 := by
    rw [calculateSizeSimilarity]
    have hwne : ¬ (fp.width = 0) := ne_of_gt hw
    have hhne : ¬ (fp.height = 0) := ne_of_gt hh
    simp [jsDiv, hwne, hhne]
  have hstyle : calculateStyleSimilarity fp fp = 1 := by
    norm_num [calculateStyleSimilarity]
  have hpos : calculatePositionSimilarity rsqrt fp fp = some 1 := by
    rw [calculatePositionSimilarity]
    simp only [sub_self, ne_eq, OfNat.ofNat_ne_zero, not_false_eq_true, zero_pow,
      add_zero, h0]
    simp [jsDiv, hD]
  have htext : calculateTextSimilarity fp.text fp.text = 1 := by
    rw [calculateTextSimilarity, levDistance_self, max_self]
    by_cases hl : fp.text.length > 0
    · simp [hl]
    · simp [hl]
  rw [compareVisualSimilarity, hhashes]
  simp only [Option.bind_eq_bind, Option.some_bind, hsize, hpos, hstyle, htext]
  norm_num

/-- Witness for the amended C8: a concrete 2 by 3 fingerprint with hash ab compared with itself scores exactly 1. -/
theorem compareVisual_self_one_witness :
    compareVisualSimilarity (fun q => if q = 0 then 0 else 1)
      (VisualFingerprint.mk 2 3 "red" "blue" "12px" "arial" "bold" "1px" "2px"
        5 6 1 "hi" "9" "ab")
      (VisualFingerprint.mk 2 3 "red" "blue" "12px" "arial" "bold" "1px" "2px"
        5 6 1 "hi" "9" "ab") = some 1 :=
  compareVisual_self_one (fun q => if q = 0 then 0 else 1)
    (VisualFingerprint.mk 2 3 "red" "blue" "12px" "arial" "bold" "1px" "2px"
      5 6 1 "hi" "9" "ab")
    (by norm_num) (by norm_num) (by norm_num) (by norm_num) (by decide)

/- ===== AISelfHealingService: element snapshot and feature extraction ===== -/

/-- Node data used by the smart-XPath walk: lowercased tag, element id, and the one-based index among same-tag siblings that the source computes from the DOM (zero for a node with no parent). -/
structure XNode where
  tag : String
  id : String
  idx : Nat
deriving DecidableEq, Repr

/-- Element snapshot consumed by the AI service. tag is tagName lowercased; id, className and textContent are empty when absent. The computed-style and bounding-rect reads (display, visibility, color, width, height) and the structural reads (siblingCount, indexAmongSiblings, and the self-then-ancestors chain walked by the XPath generator) are environment reads supplied with the snapshot. -/
structure AIElement where
  tag : String
  id : String
  className : String
  attributes : List (String × String)
  textContent : String
  display : String
  visibility : String
  color : String
  width : ℚ
  height : ℚ
  siblingCount : Nat
  indexAmongSiblings : Int
  chain : List XNode
deriving DecidableEq, Repr

/-- Uncommon-color heuristic: the color is not in the small common-color list. -/
def isUniqueColor (color : String) : Bool :=
  !(["#000000", "#ffffff", "#808080", "#c0c0c0"].contains (lowerStr color))

/-- Uncommon-size heuristic: the box is within 10 pixels of none of the typical button and input sizes. -/
def isUniqueSize (w h : ℚ) : Bool :=
  !([((200 : ℚ), (30 : ℚ)), (150, 30), (300, 150)].any
      (fun sz => decide (|w - sz.1| < 10) && decide (|h - sz.2| < 10)))

/-- Word count of the trimmed text as the JS whitespace split computes it: the split of an empty string still has one (empty) element. -/
def trimmedWordCount (s : String) : Nat :=
  let t := jsTrim s
  if t == "" then 1 else countWords t.data false

/-- Feature extraction of AISelfHealingService.extractFeatures; the locator argument of the source is never read by the extraction. -/
def extractFeatures (e : AIElement) : LocatorFeatures :=
  { elementType := e.tag
    hasId := !(e.id == "")
    hasTestId := truthyStr (alookup "data-testid" e.attributes)
    hasAriaLabel := truthyStr (alookup "aria-label" e.attributes)
    hasRole := truthyStr (alookup "role" e.attributes)
    hasName := truthyStr (alookup "name" e.attributes)
    hasPlaceholder := truthyStr (alookup "placeholder" e.attributes)
    hasText := !(jsTrim e.textContent == "")
    hasClass := !(e.className == "")
    textLength := e.textContent.length
    textWordCount := trimmedWordCount e.textContent
    hasNumericText := anyDigitTest e.textContent
    hasSpecialChars := specialCharsTest e.textContent
    depth := e.chain.length - 1
    siblingCount := e.siblingCount
    indexAmongSiblings := e.indexAmongSiblings
    isVisible := !(e.display == "none") && !(e.visibility == "hidden")
    isClickable := ["button", "a", "input", "select", "textarea"].contains e.tag
    hasUniqueColor := isUniqueColor e.color
    hasUniqueSize := isUniqueSize e.width e.height
    hasNumericId := hasLongNumericRun e.id
    hasCssModuleClass := cssModuleClassTest e.className
    hasTimestamp := timestampKeywordTest (e.id ++ e.className)
    hasUuid := uuidTest e.id
    hasRandomId := randomKeywordTest (e.id ++ e.className) }

/- ===== AISelfHealingService: alternative locator generation ===== -/

/-- Dynamic-id test of the AI service: a six-digit run, a dynamic keyword, or an unanchored css-dash-word. -/
def isDynamicId (s : String) : Bool :=
  hasLongNumericRun s || dynamicKeywordTest s || cssDashWordAnywhere s

/-- Dynamic-class test of the AI service: an anchored css-module class or a six-digit run. -/
def isDynamicClass (s : String) : Bool :=
  cssModuleClassTest s || hasLongNumericRun s

/-- Path segments pushed by generateSmartXPath while walking the chain: an id-anchored segment stops the walk, otherwise a tag-indexed step is pushed and the walk continues. -/
def smartXPathSegs : List XNode → List String
  | [] => []
  | n :: rest =>
    if !(n.id == "") && !isDynamicId n.id then
      ["//*[@id=\"" ++ n.id ++ "\"]"]
    else
      ("/" ++ n.tag ++ "[" ++ toString n.idx ++ "]") :: smartXPathSegs rest

/-- Smart XPath of the AI service: the pushed segments reversed and joined. -/
def generateSmartXPath (e : AIElement) : String :=
  String.join (smartXPathSegs e.chain).reverse

/-- Alternative locator with its strategy tag, as produced by generateAlternativeLocators. -/
structure AltCandidate where
  locator : String
  strategy : String
deriving DecidableEq, Repr

/-- Alternative generation of AISelfHealingService.generateAlternativeLocators: one optional candidate per strategy, in the fixed source order testid, id, aria, role, name, placeholder, text, css, and always xpath last. -/
def generateAlternativeLocators (e : AIElement) : List AltCandidate :=
  (match jsOrStr (alookup "data-testid" e.attributes) (alookup "data-test" e.attributes) with
   | some t => if !(t == "") then [⟨"[data-testid=\"" ++ t ++ "\"]", "testid"⟩] else []
   | none => []) ++
  (if !(e.id == "") && !isDynamicId e.id then [⟨"#" ++ e.id, "id"⟩] else []) ++
  (match alookup "aria-label" e.attributes with
   | some v => if !(v == "") then [⟨"[aria-label=\"" ++ v ++ "\"]", "aria"⟩] else []
   | none => []) ++
  (match alookup "role" e.attributes with
   | some v => if !(v == "") then [⟨"[role=\"" ++ v ++ "\"]", "role"⟩] else []
   | none => []) ++
  (match alookup "name" e.attributes with
   | some v => if !(v == "") then [⟨"[name=\"" ++ v ++ "\"]", "name"⟩] else []
   | none => []) ++
  (match alookup "placeholder" e.attributes with
   | some v => if !(v == "") then [⟨"[placeholder=\"" ++ v ++ "\"]", "placeholder"⟩] else []
   | none => []) ++
  (let t := jsTrim e.textContent
   if !(t == "") && decide (t.length < 50) then
     [⟨e.tag ++ ":has-text(\"" ++ t ++ "\")", "text"⟩]
   else []) ++
  (if !(e.className == "") && !isDynamicClass e.className then
     [⟨e.tag ++ "." ++ firstToken e.className, "css"⟩]
   else []) ++
  [⟨generateSmartXPath e, "xpath"⟩]

/- ===== AISelfHealingService: healing state, auto-heal, outcome recording ===== -/

/-- Healing history record of the AI service; the nested context object is flattened into the three context fields, and the optional rollback stamp is a timestamp and reason pair. -/
structure HealingHistory where
  id : String
  originalLocator : String
  healedLocator : String
  success : Bool
  confidence : ℚ
  timestamp : Int
  contextUrl : String
  contextElementType : String
  contextFailureReason : String
  rollback : Option (Int × String)
deriving DecidableEq, Repr

/-- Auto-healing configuration of the AI service. -/
structure AutoHealingConfig where
  enabled : Bool
  confidenceThreshold : ℚ
  maxRetries : Nat
  rollbackAfterFailures : Nat
  requireUserApproval : Bool
  autoApproveHighConfidence : Bool
deriving DecidableEq, Repr

/-- Mutable state of the AI service: configuration, the per-context healing history Map, and the model state. -/
structure AIServiceState where
  config : AutoHealingConfig
  healingHistory : List (String × List HealingHistory)
  mlState : MLState
deriving DecidableEq, Repr

/-- Healing decision returned by autoHealLocator. -/
structure HealDecision where
  healedLocator : String
  confidence : ℚ
  autoApplied : Bool
  requiresApproval : Bool
deriving DecidableEq, Repr

/-- Map.set: replace the value of an existing key in place, or append the new key at the end, as JS Map insertion order does. -/
def setKey {α : Type} (k : String) (v : α) : List (String × α) → List (String × α)
  | [] => [(k, v)]
  | (k2, v2) :: rest => if k2 = k then (k, v) :: rest else (k2, v2) :: setKey k v rest

/-- Context history read by autoHealLocator: the entry under the locator-and-url key, or empty. -/
def historyOf (st : AIServiceState) (failedLocator url : String) : List HealingHistory :=
  (alookup (failedLocator ++ "-" ++ url) st.healingHistory).getD []

/-- Final confidence of one alternative inside autoHealLocator: the model prediction for the element (the prediction does not depend on the candidate locator) plus a 0.1 boost when the context history holds a successful record with the same healed locator, capped at 1. -/
def finalConfidenceFor (sigmoid : ℚ → ℚ) (ml : MLState) (history : List HealingHistory)
    (e : AIElement) (loc : String) : ℚ :=
  let prediction := mlPredict sigmoid ml (extractFeatures e)
  let historicalBoost : ℚ :=
    if (history.filter (fun h => h.healedLocator == loc && h.success)).length > 0
    then 0.1 else 0
  min 1 (prediction + historicalBoost)

/-- Characters before the first locator punctuation character. -/
def takeUntilLocatorPunct : List Char → List Char
  | [] => []
  | c :: rest =>
    if c = '#' || c = '.' || c = '[' || c = ']' then []
    else c :: takeUntilLocatorPunct rest

/-- Element type stored in the healing record context: the locator split on the locator punctuation characters, first segment, with the JS or-else default unknown. -/
def locatorHeadSegment (loc : String) : String :=
  let first := String.mk (takeUntilLocatorPunct loc.data)
  if first == "" then "unknown" else first

/-- Record created by autoHealLocator for a clearing alternative, with success already false. -/
def mkHealingRecord (newId : String) (now : Int) (failedLocator : String)
    (url failureReason : String) (loc : String) (confidence : ℚ) : HealingHistory :=
  { id := newId, originalLocator := failedLocator, healedLocator := loc,
    success := false, confidence := confidence, timestamp := now,
    contextUrl := url, contextElementType := locatorHeadSegment loc,
    contextFailureReason := failureReason, rollback := none }

/-- State with the context history replaced by its extension with the fresh record. -/
def healedState (st : AIServiceState) (key : String) (history : List HealingHistory)
    (record : HealingHistory) : AIServiceState :=
  { st with healingHistory := setKey key (history ++ [record]) st.healingHistory }

/-- Loop of autoHealLocator over the alternatives in generated order: the first whose final confidence reaches the threshold (inclusive comparison) yields the decision and the record append; exhaustion throws no-suitable-locator. -/
def autoHealLoop (sigmoid : ℚ → ℚ) (st : AIServiceState) (now : Int) (newId : String)
    (failedLocator : String) (e : AIElement) (url failureReason : String)
    (history : List HealingHistory) :
    List AltCandidate → Except String (HealDecision × AIServiceState)
  | [] => .error "No suitable alternative locator found"
  | alt :: rest =>
    let finalConfidence := finalConfidenceFor sigmoid st.mlState history e alt.locator
    let autoApply := decide (st.config.confidenceThreshold ≤ finalConfidence)
                       && st.config.autoApproveHighConfidence
    if st.config.confidenceThreshold ≤ finalConfidence then
      let record := mkHealingRecord newId now failedLocator url failureReason
        alt.locator finalConfidence
      .ok ({ healedLocator := alt.locator, confidence := finalConfidence,
             autoApplied := autoApply, requiresApproval := !autoApply },
           healedState st (failedLocator ++ "-" ++ url) history record)
    else
      autoHealLoop sigmoid st now newId failedLocator e url failureReason history rest

/-- Auto-heal of AISelfHealingService.autoHealLocator: throws when healing is disabled, otherwise reads the context history and walks the generated alternatives. now is the clock reading and newId the random record id generated by the call. -/
def autoHealLocator (sigmoid : ℚ → ℚ) (st : AIServiceState) (now : Int) (newId : String)
    (failedLocator : String) (e : AIElement) (url failureReason : String) :
    Except String (HealDecision × AIServiceState) :=
  if !st.config.enabled then .error "Auto-healing is disabled"
  else
    autoHealLoop sigmoid st now newId failedLocator e url failureReason
      (historyOf st failedLocator url) (generateAlternativeLocators e)

/-- Search for the record with the given id across the history Map in insertion order. -/
def findHealingRecord (histories : List (String × List HealingHistory)) (hid : String) :
    Option HealingHistory :=
  match histories with
  | [] => none
  | (_, l) :: rest =>
    match l.find? (fun h => h.id == hid) with
    | some r => some r
    | none => findHealingRecord rest hid

/-- Apply f to the first record with the given id in a list; none when absent. -/
def updateRecordInList (hid : String) (f : HealingHistory → HealingHistory) :
    List HealingHistory → Option (List HealingHistory)
  | [] => none
  | h :: rest =>
    if h.id == hid then some (f h :: rest)
    else
      match updateRecordInList hid f rest with
      | some l => some (h :: l)
      | none => none

/-- Apply f to the first record with the given id across the history Map; none when absent. This models the in-place mutation of the record object found by the source. -/
def updateRecordInMap (hid : String) (f : HealingHistory → HealingHistory) :
    List (String × List HealingHistory) →
      Option (List (String × List HealingHistory))
  | [] => none
  | (k, l) :: rest =>
    match updateRecordInList hid f l with
    | some l2 => some ((k, l2) :: rest)
    | none =>
      match updateRecordInMap hid f rest with
      | some m => some ((k, l) :: m)
      | none => none

/-- Seven-day window test of recordHealingResult: the day difference of the timestamps, milliseconds divided by the milliseconds of a day, is at most seven. -/
def withinSevenDays (now : Int) (h : HealingHistory) : Bool :=
  decide ((((now - h.timestamp : Int) : ℚ) / 86400000) ≤ 7)

/-- Recent-failure test applied by recordHealingResult: same healed locator, a timestamp within the last seven days, and a non-success flag. -/
def isRecentFailure (now : Int) (target : String) (h : HealingHistory) : Bool :=
  h.healedLocator == target && withinSevenDays now h && !h.success

/-- Outcome recording of AISelfHealingService.recordHealingResult: the found record's success flag is set; on failure the recent failures with the same healed locator within seven days are counted in the context history (the record itself, already carrying success false, is among them) and the record is stamped rolled-back once they reach the configured limit. The unreliable-locator list written on rollback is never read back by candidate generation, and the closing model-retrain step queries the live document, so neither alters this state. -/
def recordHealingResult (st : AIServiceState) (now : Int) (healingId : String)
    (success : Bool) : Except String AIServiceState :=
  match findHealingRecord st.healingHistory healingId with
  | none => .error "Healing record not found"
  | some record0 =>
    let afterSuccess := (updateRecordInMap healingId
      (fun r => { r with success := success }) st.healingHistory).getD st.healingHistory
    let record := { record0 with success := success }
    if success then .ok { st with healingHistory := afterSuccess }
    else
      let key := record.originalLocator ++ "-" ++ record.contextUrl
      let history := (alookup key afterSuccess).getD []
      let recentFailures :=
        ((history.filter (fun h => h.healedLocator == record.healedLocator)).filter
          (fun h => withinSevenDays now h)).filter (fun h => !h.success)
      if st.config.rollbackAfterFailures ≤ recentFailures.length then
        let reason :=
          "Auto-rollback after " ++ toString recentFailures.length ++ " failures"
        let stamp := fun (r : HealingHistory) => { r with rollback := some (now, reason) }
        let withRollback := (updateRecordInMap healingId stamp afterSuccess).getD afterSuccess
        .ok { st with healingHistory := withRollback }
      else .ok { st with healingHistory := afterSuccess }

/- ===== AISelfHealingService: statistics ===== -/

/-- All records across the history Map, in insertion order. -/
def allHealings (histories : List (String × List HealingHistory)) : List HealingHistory :=
  (histories.map (fun en => en.2)).flatten

/-- Statistics of getHealingStatistics; the top-strategies breakdown is derived from the same records and omitted here. -/
structure HealingStats where
  totalHealings : Nat
  successRate : ℚ
  autoHealRate : ℚ
  rollbackRate : ℚ
  averageConfidence : ℚ
deriving DecidableEq, Repr

/-- Aggregate statistics of AISelfHealingService.getHealingStatistics: rates over all records, zero when the history is empty. -/
def getHealingStatistics (st : AIServiceState) : HealingStats :=
  let all := allHealings st.healingHistory
  let total := all.length
  let successful := (all.filter (fun h => h.success)).length
  { totalHealings := total
    successRate := if total > 0 then (successful : ℚ) / (total : ℚ) else 0
    autoHealRate := if total > 0 then
        (((all.filter (fun h => st.config.confidenceThreshold ≤ h.confidence)).length : ℚ)
          / (total : ℚ)) else 0
    rollbackRate := if total > 0 then
        (((all.filter (fun h => h.rollback.isSome)).length : ℚ) / (total : ℚ)) else 0
    averageConfidence := if total > 0 then
        (all.foldl (fun s h => s + h.confidence) 0) / (total : ℚ) else 0 }

/- ===== helper lemmas about the auto-heal loop ===== -/

/-- Helper: a successful loop run decomposes the alternatives into a non-clearing margin, the first clearing alternative the decision is built from, and the rest. -/
theorem autoHealLoop_ok_decomp (sigmoid : ℚ → ℚ) (st : AIServiceState) (now : Int)
    (newId failedLocator : String) (e : AIElement) (url failureReason : String)
    (history : List HealingHistory) :
    ∀ (alts : List AltCandidate) (d : HealDecision) (st2 : AIServiceState),
      autoHealLoop sigmoid st now newId failedLocator e url failureReason history alts
        = .ok (d, st2) →
      ∃ pre alt post,
        alts = pre ++ alt :: post ∧
        (∀ a ∈ pre,
          finalConfidenceFor sigmoid st.mlState history e a.locator
            < st.config.confidenceThreshold) ∧
        st.config.confidenceThreshold
          ≤ finalConfidenceFor sigmoid st.mlState history e alt.locator ∧
        d.healedLocator = alt.locator ∧
        d.confidence = finalConfidenceFor sigmoid st.mlState history e alt.locator ∧
        d.autoApplied = st.config.autoApproveHighConfidence ∧
        d.requiresApproval = (!st.config.autoApproveHighConfidence) ∧
        st2 = healedState st (failedLocator ++ "-" ++ url) history
          (mkHealingRecord newId now failedLocator url failureReason alt.locator
            (finalConfidenceFor sigmoid st.mlState history e alt.locator)) := by
  intro alts
  induction alts with
  | nil =>
    intro d st2 h
    rw [autoHealLoop] at h
    exact Except.noConfusion h
  | cons alt rest ih =>
    intro d st2 h
    simp only [autoHealLoop] at h
    by_cases hc : st.config.confidenceThreshold
        ≤ finalConfidenceFor sigmoid st.mlState history e alt.locator
    · rw [if_pos hc, decide_eq_true hc, Bool.true_and] at h
      injection h with hp
      injection hp with hd hst
      refine ⟨[], alt, rest, rfl, ?_, hc, ?_, ?_, ?_, ?_, ?_⟩
      · intro a ha
        cases ha
      · rw [← hd]
      · rw [← hd]
      · rw [← hd]
      · rw [← hd]
      · rw [← hst]
    · rw [if_neg hc] at h
      obtain ⟨pre, a2, post, hdec, hpre, hcl, hh1, hh2, hh3, hh4, hh5⟩ := ih d st2 h
      refine ⟨alt :: pre, a2, post, by rw [List.cons_append, hdec], ?_, hcl,
        hh1, hh2, hh3, hh4, hh5⟩
      intro a ha
      rcases List.mem_cons.mp ha with rfl | h2
      · exact not_le.mp hc
      · exact hpre a h2

/-- Helper: when some alternative clears the threshold, the loop succeeds. -/
theorem autoHealLoop_clears_ok (sigmoid : ℚ → ℚ) (st : AIServiceState) (now : Int)
    (newId failedLocator : String) (e : AIElement) (url failureReason : String)
    (history : List HealingHistory) :
    ∀ alts : List AltCandidate,
      (∃ a ∈ alts, st.config.confidenceThreshold
        ≤ finalConfidenceFor sigmoid st.mlState history e a.locator) →
      ∃ r, autoHealLoop sigmoid st now newId failedLocator e url failureReason history
        alts = .ok r := by
  intro alts
  induction alts with
  | nil =>
    rintro ⟨a, ha, _⟩
    cases ha
  | cons alt rest ih =>
    rintro ⟨a, ha, hcl⟩
    by_cases hc : st.config.confidenceThreshold
        ≤ finalConfidenceFor sigmoid st.mlState history e alt.locator
    · exact ⟨_, by simp only [autoHealLoop]; rw [if_pos hc]⟩
    · rcases List.mem_cons.mp ha with rfl | h2
      · exact absurd hcl hc
      · obtain ⟨r, hr⟩ := ih ⟨a, h2, hcl⟩
        exact ⟨r, by simp only [autoHealLoop]; rw [if_neg hc]; exact hr⟩

/- ===== theorems for C1 ===== -/

/-- History used by the C1 counterexample: one successful prior healing of the css alternative in the same context. -/
def cxHistory : List HealingHistory :=
  [⟨"p0", "#old", "button.btn", true, 0.9, 0, "u", "button", "gone", none⟩]

/-- Element of the C1 counterexample: a button with a data-testid and a stable class. -/
def cxElement : AIElement :=
  ⟨"button", "", "btn", [("data-testid", "x")], "", "", "", "", 0, 0, 0, 0,
    [⟨"button", "", 0⟩]⟩

/-- Service state of the C1 counterexample: default configuration, the one-record context history, untrained model. -/
def cxState : AIServiceState :=
  ⟨⟨true, 0.85, 3, 3, false, true⟩, [("#old-u", cxHistory)], ⟨[], 0, false⟩⟩

/-- Helper: evaluation of the unit-interval clamp at an in-range value. -/
theorem clampEval (x : ℚ) (h0 : 0 ≤ x) (h1 : x ≤ 1) : max 0 (min 1 x) = x := by
  rw [min_eq_right h1, max_eq_right h0]

/-- Helper: the model prediction for the counterexample element is 0.9. -/
theorem cxPrediction :
    mlPredict (fun q => q) cxState.mlState (extractFeatures cxElement) = 0.9 := by
  have h1 : (extractFeatures cxElement).hasTestId = true := by decide
  have h2 : (extractFeatures cxElement).hasId = false := by decide
  have h3 : (extractFeatures cxElement).hasNumericId = false := by decide
  have h4 : (extractFeatures cxElement).hasAriaLabel = false := by decide
  have h5 : (extractFeatures cxElement).hasRole = false := by decide
  have h6 : (extractFeatures cxElement).hasCssModuleClass = false := by decide
  have h7 : (extractFeatures cxElement).hasTimestamp = false := by decide
  have h8 : (extractFeatures cxElement).hasUuid = false := by decide
  have h9 : (extractFeatures cxElement).isClickable = true := by decide
  have h10 : (extractFeatures cxElement).elementType = "button" := by decide
  have h11 : (extractFeatures cxElement).hasClass = true := by decide
  rw [show cxState.mlState = ⟨[], 0, false⟩ from rfl]
  simp only [mlPredict, Bool.false_eq_true, if_false, heuristicPrediction,
    h1, h2, h3, h4, h5, h6, h7, h8, h9, h10, h11]
  norm_num

/-- Helper: the final confidence of the testid alternative in the counterexample context is 0.9, with no successful history for it. -/
theorem cxFcTestid :
    finalConfidenceFor (fun q => q) cxState.mlState cxHistory cxElement
      "[data-testid=\"x\"]" = 0.9 := by
  have hb : (cxHistory.filter
      (fun h => h.healedLocator == "[data-testid=\"x\"]" && h.success)).length = 0 := by
    decide
  simp only [finalConfidenceFor, cxPrediction, hb]
  norm_num

/-- Helper: the final confidence of the css alternative in the counterexample context is 1, boosted by its successful history record. -/
theorem cxFcCss :
    finalConfidenceFor (fun q => q) cxState.mlState cxHistory cxElement
      "button.btn" = 1 := by
  have hb : (cxHistory.filter
      (fun h => h.healedLocator == "button.btn" && h.success)).length = 1 := by decide
  simp only [finalConfidenceFor, cxPrediction, hb]
  norm_num

/-- C1 counterexample: autoHeal returns the testid alternative at confidence 0.9 although the css alternative, later in strategy order, also clears the threshold with the strictly higher final confidence 1 thanks to its history boost. The candidates are therefore not examined in descending final confidence, and the decision is not for the highest-confidence clearing candidate. -/
theorem autoHeal_not_descending :
    (autoHealLocator (fun q => q) cxState 10 "n1" "#old" cxElement "u" "gone").map
        (fun p => (p.1.healedLocator, p.1.confidence))
      = .ok ("[data-testid=\"x\"]", 0.9) ∧
    AltCandidate.mk "button.btn" "css" ∈ generateAlternativeLocators cxElement ∧
    finalConfidenceFor (fun q => q) cxState.mlState
      (historyOf cxState "#old" "u") cxElement "button.btn" = 1 ∧
    cxState.config.confidenceThreshold ≤ 1 ∧ (0.9 : ℚ) < 1 := by
  have hh : historyOf cxState "#old" "u" = cxHistory := rfl
  have halts : generateAlternativeLocators cxElement =
      [⟨"[data-testid=\"x\"]", "testid"⟩, ⟨"button.btn", "css"⟩,
       ⟨"/button[0]", "xpath"⟩] := by decide
  refine ⟨?_, by decide, by rw [hh, cxFcCss], by norm_num [cxState], by norm_num⟩
  have hen : (!cxState.config.enabled) = false := by decide
  rw [autoHealLocator, hen]
  simp only [Bool.false_eq_true, if_false]
  rw [hh, halts]
  simp only [autoHealLoop, cxFcTestid]
  rw [if_pos (by norm_num [cxState] : cxState.config.confidenceThreshold ≤ (0.9 : ℚ))]
  rfl

/-- C1 as amended: with healing enabled, autoHeal examines the alternatives in the order generateAlternativeLocators produces them (fixed strategy-priority order, not descending final confidence): a successful call returns a decision built from the first alternative in that order whose history-boosted confidence reaches the threshold, every earlier alternative scoring strictly below it; and the comparison is inclusive, so whenever any alternative reaches the threshold, an exact tie included, the call returns a decision rather than the no-suitable-locator error. -/
theorem autoHeal_first_clearing (sigmoid : ℚ → ℚ) (st : AIServiceState) (now : Int)
    (newId failedLocator : String) (e : AIElement) (url failureReason : String)
    (hen : st.config.enabled = true) :
    (∀ d st2,
      autoHealLocator sigmoid st now newId failedLocator e url failureReason
          = .ok (d, st2) →
      ∃ pre alt post,
        generateAlternativeLocators e = pre ++ alt :: post ∧
        (∀ a ∈ pre, finalConfidenceFor sigmoid st.mlState
          (historyOf st failedLocator url) e a.locator
            < st.config.confidenceThreshold) ∧
        st.config.confidenceThreshold ≤ finalConfidenceFor sigmoid st.mlState
          (historyOf st failedLocator url) e alt.locator ∧
        d.healedLocator = alt.locator ∧
        d.confidence = finalConfidenceFor sigmoid st.mlState
          (historyOf st failedLocator url) e alt.locator) ∧
    (∀ alt ∈ generateAlternativeLocators e,
      st.config.confidenceThreshold ≤ finalConfidenceFor sigmoid st.mlState
        (historyOf st failedLocator url) e alt.locator →
      ∃ r, autoHealLocator sigmoid st now newId failedLocator e url failureReason
        = .ok r) := by
  have hne : (!st.config.enabled) = false := by rw [hen]; rfl
  constructor
  · intro d st2 h
    rw [autoHealLocator, hne] at h
    simp only [Bool.false_eq_true, if_false] at h
    obtain ⟨pre, alt, post, h1, h2, h3, h4, h5, _, _, _⟩ :=
      autoHealLoop_ok_decomp (fun q => sigmoid q) st now newId failedLocator e url
        failureReason (historyOf st failedLocator url)
        (generateAlternativeLocators e) d st2 h
    exact ⟨pre, alt, post, h1, h2, h3, h4, h5⟩
  · intro alt halt hcl
    obtain ⟨r, hr⟩ := autoHealLoop_clears_ok (fun q => sigmoid q) st now newId
      failedLocator e url failureReason (historyOf st failedLocator url)
      (generateAlternativeLocators e) ⟨alt, halt, hcl⟩
    refine ⟨r, ?_⟩
    rw [autoHealLocator, hne]
    simpa using hr

/-- Element of end-to-end scenario C: its heuristic prediction is exactly 0.85. -/
def scElement : AIElement :=
  ⟨"div", "", "time-box", [("data-testid", "x"), ("aria-label", "y")], "", "", "", "",
   0, 0, 0, 0, [⟨"div", "", 0⟩]⟩

/-- Service state of scenario C: threshold 0.85, empty history, untrained model. -/
def scState : AIServiceState :=
  ⟨⟨true, 0.85, 3, 3, false, true⟩, [], ⟨[], 0, false⟩⟩

/-- Witness for the amended C1 at scenario C: the testid alternative scores exactly the 0.85 threshold, the inclusive comparison clears it, and autoHeal returns a decision rather than the no-suitable-locator error. -/
theorem autoHeal_first_clearing_witness :
    scState.config.enabled = true ∧
    AltCandidate.mk "[data-testid=\"x\"]" "testid"
      ∈ generateAlternativeLocators scElement ∧
    finalConfidenceFor (fun q => q) scState.mlState
      (historyOf scState "#old" "u") scElement "[data-testid=\"x\"]" = 0.85 ∧
    scState.config.confidenceThreshold ≤ finalConfidenceFor (fun q => q) scState.mlState
      (historyOf scState "#old" "u") scElement "[data-testid=\"x\"]" ∧
    ∃ r, autoHealLocator (fun q => q) scState 1 "h1" "#old" scElement "u" "gone"
      = .ok r := by
  have h1 : (extractFeatures scElement).hasTestId = true := by decide
  have h2 : (extractFeatures scElement).hasId = false := by decide
  have h3 : (extractFeatures scElement).hasNumericId = false := by decide
  have h4 : (extractFeatures scElement).hasAriaLabel = true := by decide
  have h5 : (extractFeatures scElement).hasRole = false := by decide
  have h6 : (extractFeatures scElement).hasCssModuleClass = false := by decide
  have h7 : (extractFeatures scElement).hasTimestamp = true := by decide
  have h8 : (extractFeatures scElement).hasUuid = false := by decide
  have h9 : (extractFeatures scElement).isClickable = false := by decide
  have h10 : (extractFeatures scElement).elementType = "div" := by decide
  have h11 : (extractFeatures scElement).hasClass = true := by decide
  have hpred : mlPredict (fun q => q) scState.mlState (extractFeatures scElement)
      = 0.85 := by
    rw [show scState.mlState = ⟨[], 0, false⟩ from rfl]
    simp only [mlPredict, Bool.false_eq_true, if_false, heuristicPrediction,
      h1, h2, h3, h4, h5, h6, h7, h8, h9, h10, h11]
    norm_num
  have hh : historyOf scState "#old" "u" = [] := rfl
  have hfc : finalConfidenceFor (fun q => q) scState.mlState
      (historyOf scState "#old" "u") scElement "[data-testid=\"x\"]" = 0.85 := by
    simp only [finalConfidenceFor, hh, hpred, List.filter_nil]
    norm_num
  have hm : AltCandidate.mk "[data-testid=\"x\"]" "testid"
      ∈ generateAlternativeLocators scElement := by decide
  have hcl : scState.config.confidenceThreshold ≤ finalConfidenceFor (fun q => q)
      scState.mlState (historyOf scState "#old" "u") scElement
      "[data-testid=\"x\"]" := by
    rw [hfc]
    norm_num [scState]
  exact ⟨rfl, hm, hfc, hcl,
    (autoHeal_first_clearing (fun q => q) scState 1 "h1" "#old" scElement "u" "gone"
      rfl).2 _ hm hcl⟩

/- ===== helper lemmas about setKey and the statistics ===== -/

/-- Helper: reading back the key just set returns the value just stored. -/
theorem alookup_setKey {α : Type} (k : String) (v : α) :
    ∀ m : List (String × α), alookup k (setKey k v m) = some v := by
  intro m
  induction m with
  | nil => simp [setKey, alookup]
  | cons p rest ih =>
    obtain ⟨k2, v2⟩ := p
    by_cases hk : k2 = k
    · simp [setKey, hk, alookup]
    · simp [setKey, hk, alookup, ih]

/-- Helper: appending one record to the entry of a key changes any filtered record count by that record's contribution. -/
theorem allHealings_setKey_filter (k : String) (r : HealingHistory)
    (p : HealingHistory → Bool) :
    ∀ m : List (String × List HealingHistory),
      ((allHealings (setKey k ((alookup k m).getD [] ++ [r]) m)).filter p).length
        = ((allHealings m).filter p).length + (if p r then 1 else 0) := by
  intro m
  induction m with
  | nil =>
    simp [setKey, alookup, allHealings, List.filter_cons]
    cases hp : p r <;> simp [hp]
  | cons en rest ih =>
    obtain ⟨k2, l⟩ := en
    by_cases hk : k2 = k
    · subst hk
      simp [setKey, alookup, allHealings, List.filter_append, List.filter_cons]
      cases hp : p r <;> simp [hp] <;> omega
    · simp only [setKey, hk, if_false, alookup, allHealings, List.map_cons,
        List.flatten_cons, List.filter_append, List.length_append] at ih ⊢
      omega

/-- Helper: appending one record to the entry of a key grows the total record count by one. -/
theorem allHealings_setKey_length (k : String) (r : HealingHistory) :
    ∀ m : List (String × List HealingHistory),
      (allHealings (setKey k ((alookup k m).getD [] ++ [r]) m)).length
        = (allHealings m).length + 1 := by
  intro m
  induction m with
  | nil => simp [setKey, alookup, allHealings]
  | cons en rest ih =>
    obtain ⟨k2, l⟩ := en
    by_cases hk : k2 = k
    · subst hk
      simp [setKey, alookup, allHealings]
      omega
    · simp only [setKey, hk, if_false, alookup, allHealings, List.map_cons,
        List.flatten_cons, List.length_append] at ih ⊢
      omega

/- ===== theorems for C10 ===== -/

/-- C10: every record autoHeal creates has success already false (there is no unknown outcome state): a successful call appends exactly one record to its context history, created with success false and timestamped with the call clock, so an outcome never reported leaves it counted in the statistics total but not among the successes (successRate becomes prior successes over total plus one), and it already passes the seven-day recent-failure filter that drives rollback. -/
theorem autoHeal_record_success_false (sigmoid : ℚ → ℚ) (st : AIServiceState)
    (now : Int) (newId failedLocator : String) (e : AIElement)
    (url failureReason : String) (d : HealDecision) (st2 : AIServiceState)
    (h : autoHealLocator sigmoid st now newId failedLocator e url failureReason
      = .ok (d, st2)) :
    ∃ r : HealingHistory,
      r.success = false ∧
      r.healedLocator = d.healedLocator ∧
      r.timestamp = now ∧
      alookup (failedLocator ++ "-" ++ url) st2.healingHistory
        = some (historyOf st failedLocator url ++ [r]) ∧
      isRecentFailure now r.healedLocator r = true ∧
      (getHealingStatistics st2).totalHealings
        = (getHealingStatistics st).totalHealings + 1 ∧
      ((allHealings st2.healingHistory).filter (fun x => x.success)).length
        = ((allHealings st.healingHistory).filter (fun x => x.success)).length ∧
      (getHealingStatistics st2).successRate
        = (((allHealings st.healingHistory).filter (fun x => x.success)).length : ℚ)
          / (((getHealingStatistics st).totalHealings : ℚ) + 1) := by
  have hen : st.config.enabled = true := by
    by_contra hc
    have hf : st.config.enabled = false := by
      cases hb : st.config.enabled
      · rfl
      · exact absurd hb hc
    rw [autoHealLocator, hf] at h
    simp at h
  have hne : (!st.config.enabled) = false := by rw [hen]; rfl
  rw [autoHealLocator, hne] at h
  simp only [Bool.false_eq_true, if_false] at h
  obtain ⟨pre, alt, post, h1, h2, h3, h4, h5, h6, h7, hst2⟩ :=
    autoHealLoop_ok_decomp sigmoid st now newId failedLocator e url failureReason
      (historyOf st failedLocator url) (generateAlternativeLocators e) d st2 h
  set fc := finalConfidenceFor sigmoid st.mlState (historyOf st failedLocator url) e
    alt.locator with hfc
  refine ⟨mkHealingRecord newId now failedLocator url failureReason alt.locator fc,
    rfl, by rw [h4]; rfl, rfl, ?_, ?_, ?_, ?_, ?_⟩
  · rw [hst2]
    exact alookup_setKey (failedLocator ++ "-" ++ url) _ st.healingHistory
  · simp only [isRecentFailure, withinSevenDays, mkHealingRecord, beq_self_eq_true,
      Bool.true_and, Bool.not_false, Bool.and_true, sub_self]
    norm_num
  · rw [hst2]
    simp only [getHealingStatistics, healedState]
    exact allHealings_setKey_length (failedLocator ++ "-" ++ url) _ st.healingHistory
  · rw [hst2]
    have hsucc : (mkHealingRecord newId now failedLocator url failureReason
        alt.locator fc).success = false := rfl
    have := allHealings_setKey_filter (failedLocator ++ "-" ++ url)
      (mkHealingRecord newId now failedLocator url failureReason alt.locator fc)
      (fun x => x.success) st.healingHistory
    simp only [hsucc, Bool.false_eq_true, if_false, Nat.add_zero] at this
    simpa [healedState] using this
  · rw [hst2]
    have hsucc : (mkHealingRecord newId now failedLocator url failureReason
        alt.locator fc).success = false := rfl
    have hlen := allHealings_setKey_length (failedLocator ++ "-" ++ url)
      (mkHealingRecord newId now failedLocator url failureReason alt.locator fc)
      st.healingHistory
    have hflt := allHealings_setKey_filter (failedLocator ++ "-" ++ url)
      (mkHealingRecord newId now failedLocator url failureReason alt.locator fc)
      (fun x => x.success) st.healingHistory
    simp only [hsucc, Bool.false_eq_true, if_false, Nat.add_zero] at hflt
    simp only [getHealingStatistics, healedState] at hlen hflt ⊢
    have hconv : (alookup (failedLocator ++ "-" ++ url) st.healingHistory).getD []
        = historyOf st failedLocator url := rfl
    rw [hconv] at hlen hflt
    rw [hlen, hflt]
    have hpos : (allHealings st.healingHistory).length + 1 > 0 := Nat.succ_pos _
    rw [if_pos hpos]
    push_cast
    ring

/-- Record appended by the concrete autoHeal call of the counterexample context. -/
def cxRecord : HealingHistory :=
  mkHealingRecord "n1" 10 "#old" "u" "gone" "[data-testid=\"x\"]" 0.9

/-- State after the concrete autoHeal call of the counterexample context. -/
def cxState2 : AIServiceState := healedState cxState "#old-u" cxHistory cxRecord

/-- Helper: full evaluation of the concrete autoHeal call of the counterexample context. -/
theorem cxAutoHealEval :
    autoHealLocator (fun q => q) cxState 10 "n1" "#old" cxElement "u" "gone"
      = .ok (⟨"[data-testid=\"x\"]", 0.9, true, false⟩, cxState2) := by
  have hh : historyOf cxState "#old" "u" = cxHistory := rfl
  have halts : generateAlternativeLocators cxElement =
      [⟨"[data-testid=\"x\"]", "testid"⟩, ⟨"button.btn", "css"⟩,
       ⟨"/button[0]", "xpath"⟩] := by decide
  have hen : (!cxState.config.enabled) = false := by decide
  rw [autoHealLocator, hen]
  simp only [Bool.false_eq_true, if_false]
  rw [hh, halts]
  simp only [autoHealLoop, cxFcTestid]
  rw [if_pos (by norm_num [cxState] : cxState.config.confidenceThreshold ≤ (0.9 : ℚ))]
  rw [decide_eq_true
    (by norm_num [cxState] : cxState.config.confidenceThreshold ≤ (0.9 : ℚ))]
  rfl

/-- Witness for C10: the concrete autoHeal call of the counterexample context appends a record with success false that already counts as a recent failure and drops into the statistics total without raising the success count. -/
theorem autoHeal_record_success_false_witness :
    ∃ r : HealingHistory,
      r.success = false ∧
      r.healedLocator = (HealDecision.mk "[data-testid=\"x\"]" 0.9 true
        false).healedLocator ∧
      r.timestamp = 10 ∧
      alookup ("#old" ++ "-" ++ "u") cxState2.healingHistory
        = some (historyOf cxState "#old" "u" ++ [r]) ∧
      isRecentFailure 10 r.healedLocator r = true ∧
      (getHealingStatistics cxState2).totalHealings
        = (getHealingStatistics cxState).totalHealings + 1 ∧
      ((allHealings cxState2.healingHistory).filter (fun x => x.success)).length
        = ((allHealings cxState.healingHistory).filter (fun x => x.success)).length ∧
      (getHealingStatistics cxState2).successRate
        = (((allHealings cxState.healingHistory).filter (fun x => x.success)).length : ℚ)
          / (((getHealingStatistics cxState).totalHealings : ℚ) + 1) :=
  autoHeal_record_success_false (fun q => q) cxState 10 "n1" "#old" cxElement "u"
    "gone" (HealDecision.mk "[data-testid=\"x\"]" 0.9 true false) cxState2
    cxAutoHealEval

/- ===== theorems for C2: the rollback scenario ===== -/

/-- Element of the rollback scenario: a button carrying only a data-testid. -/
def rbElement : AIElement :=
  ⟨"button", "", "", [("data-testid", "x")], "", "", "", "", 0, 0, 0, 0,
   [⟨"button", "", 0⟩]⟩

/-- Configuration of the rollback scenario: threshold 0.85 and rollback after three failures, as in the defaults. -/
def rbConfig : AutoHealingConfig := ⟨true, 0.85, 3, 3, false, true⟩

/-- Record appended by each heal call of the rollback scenario. -/
def rbRecord (newId : String) (t : Int) : HealingHistory :=
  mkHealingRecord newId t "#old" "u" "gone" "[data-testid=\"x\"]" 0.9

/-- Initial state of the rollback scenario. -/
def rbState0 : AIServiceState := ⟨rbConfig, [], ⟨[], 0, false⟩⟩

/-- State after the first heal call. -/
def rbState1 : AIServiceState :=
  ⟨rbConfig, [("#old-u", [rbRecord "h1" 1])], ⟨[], 0, false⟩⟩

/-- State after the second heal call. -/
def rbState2 : AIServiceState :=
  ⟨rbConfig, [("#old-u", [rbRecord "h1" 1, rbRecord "h2" 2])], ⟨[], 0, false⟩⟩

/-- State after the third heal call. -/
def rbState3 : AIServiceState :=
  ⟨rbConfig, [("#old-u", [rbRecord "h1" 1, rbRecord "h2" 2, rbRecord "h3" 3])],
   ⟨[], 0, false⟩⟩

/-- Third record stamped rolled-back by the failure report. -/
def rbRolled : HealingHistory :=
  { rbRecord "h3" 3 with rollback := some (4, "Auto-rollback after 3 failures") }

/-- State after the third failure report triggers the rollback. -/
def rbState4 : AIServiceState :=
  ⟨rbConfig, [("#old-u", [rbRecord "h1" 1, rbRecord "h2" 2, rbRolled])],
   ⟨[], 0, false⟩⟩

/-- Helper: the model prediction for the rollback-scenario element is 0.9. -/
theorem rbPred :
    mlPredict (fun q => q) (MLState.mk [] 0 false) (extractFeatures rbElement)
      = 0.9 := by
  have h1 : (extractFeatures rbElement).hasTestId = true := by decide
  have h2 : (extractFeatures rbElement).hasId = false := by decide
  have h3 : (extractFeatures rbElement).hasNumericId = false := by decide
  have h4 : (extractFeatures rbElement).hasAriaLabel = false := by decide
  have h5 : (extractFeatures rbElement).hasRole = false := by decide
  have h6 : (extractFeatures rbElement).hasCssModuleClass = false := by decide
  have h7 : (extractFeatures rbElement).hasTimestamp = false := by decide
  have h8 : (extractFeatures rbElement).hasUuid = false := by decide
  have h9 : (extractFeatures rbElement).isClickable = true := by decide
  have h10 : (extractFeatures rbElement).elementType = "button" := by decide
  have h11 : (extractFeatures rbElement).hasClass = false := by decide
  simp only [mlPredict, Bool.false_eq_true, if_false, heuristicPrediction,
    h1, h2, h3, h4, h5, h6, h7, h8, h9, h10, h11]
  norm_num

/-- Helper: the final confidence of the testid alternative is 0.9 over any history holding no successful record for it. -/
theorem rbFc (ml : MLState) (hml : ml = ⟨[], 0, false⟩) (hist : List HealingHistory)
    (hb : (hist.filter
      (fun h => h.healedLocator == "[data-testid=\"x\"]" && h.success)).length = 0) :
    finalConfidenceFor (fun q => q) ml hist rbElement "[data-testid=\"x\"]" = 0.9 := by
  subst hml
  simp only [finalConfidenceFor, rbPred, hb]
  norm_num

/-- Helper: evaluation of the first heal call of the rollback scenario. -/
theorem rbHeal1 :
    autoHealLocator (fun q => q) rbState0 1 "h1" "#old" rbElement "u" "gone"
      = .ok (⟨"[data-testid=\"x\"]", 0.9, true, false⟩, rbState1) := by
  have hh : historyOf rbState0 "#old" "u" = [] := rfl
  have halts : generateAlternativeLocators rbElement =
      [⟨"[data-testid=\"x\"]", "testid"⟩, ⟨"/button[0]", "xpath"⟩] := by decide
  have hen : (!rbState0.config.enabled) = false := by decide
  rw [autoHealLocator, hen]
  simp only [Bool.false_eq_true, if_false]
  rw [hh, halts]
  simp only [autoHealLoop, rbFc rbState0.mlState rfl [] (by decide)]
  rw [if_pos (by norm_num [rbState0, rbConfig] :
    rbState0.config.confidenceThreshold ≤ (0.9 : ℚ))]
  rw [decide_eq_true (by norm_num [rbState0, rbConfig] :
    rbState0.config.confidenceThreshold ≤ (0.9 : ℚ))]
  rfl

/-- Helper: evaluation of the second heal call of the rollback scenario. -/
theorem rbHeal2 :
    autoHealLocator (fun q => q) rbState1 2 "h2" "#old" rbElement "u" "gone"
      = .ok (⟨"[data-testid=\"x\"]", 0.9, true, false⟩, rbState2) := by
  have hh : historyOf rbState1 "#old" "u" = [rbRecord "h1" 1] := rfl
  have halts : generateAlternativeLocators rbElement =
      [⟨"[data-testid=\"x\"]", "testid"⟩, ⟨"/button[0]", "xpath"⟩] := by decide
  have hen : (!rbState1.config.enabled) = false := by decide
  rw [autoHealLocator, hen]
  simp only [Bool.false_eq_true, if_false]
  rw [hh, halts]
  simp only [autoHealLoop, rbFc rbState1.mlState rfl [rbRecord "h1" 1] (by decide)]
  rw [if_pos (by norm_num [rbState1, rbConfig] :
    rbState1.config.confidenceThreshold ≤ (0.9 : ℚ))]
  rw [decide_eq_true (by norm_num [rbState1, rbConfig] :
    rbState1.config.confidenceThreshold ≤ (0.9 : ℚ))]
  rfl

/-- Helper: evaluation of the third heal call of the rollback scenario. -/
theorem rbHeal3 :
    autoHealLocator (fun q => q) rbState2 3 "h3" "#old" rbElement "u" "gone"
      = .ok (⟨"[data-testid=\"x\"]", 0.9, true, false⟩, rbState3) := by
  have hh : historyOf rbState2 "#old" "u" = [rbRecord "h1" 1, rbRecord "h2" 2] := rfl
  have halts : generateAlternativeLocators rbElement =
      [⟨"[data-testid=\"x\"]", "testid"⟩, ⟨"/button[0]", "xpath"⟩] := by decide
  have hen : (!rbState2.config.enabled) = false := by decide
  rw [autoHealLocator, hen]
  simp only [Bool.false_eq_true, if_false]
  rw [hh, halts]
  simp only [autoHealLoop,
    rbFc rbState2.mlState rfl [rbRecord "h1" 1, rbRecord "h2" 2] (by decide)]
  rw [if_pos (by norm_num [rbState2, rbConfig] :
    rbState2.config.confidenceThreshold ≤ (0.9 : ℚ))]
  rw [decide_eq_true (by norm_num [rbState2, rbConfig] :
    rbState2.config.confidenceThreshold ≤ (0.9 : ℚ))]
  rfl

/-- Helper: evaluation of the third failure report, which stamps the rollback. -/
theorem rbOutcome : recordHealingResult rbState3 4 "h3" false = .ok rbState4 := by
  have hfind : findHealingRecord rbState3.healingHistory "h3"
      = some (rbRecord "h3" 3) := rfl
  have hupd1 : updateRecordInMap "h3" (fun r => { r with success := false })
      rbState3.healingHistory = some rbState3.healingHistory := rfl
  have horig : (rbRecord "h3" 3).originalLocator = "#old" := rfl
  have hurl : (rbRecord "h3" 3).contextUrl = "u" := rfl
  have hloc : (rbRecord "h3" 3).healedLocator = "[data-testid=\"x\"]" := rfl
  have halo : alookup ("#old" ++ "-" ++ "u") rbState3.healingHistory
      = some [rbRecord "h1" 1, rbRecord "h2" 2, rbRecord "h3" 3] := rfl
  have hm1 : ((rbRecord "h1" 1).healedLocator == "[data-testid=\"x\"]") = true := by
    decide
  have hm2 : ((rbRecord "h2" 2).healedLocator == "[data-testid=\"x\"]") = true := by
    decide
  have hm3 : ((rbRecord "h3" 3).healedLocator == "[data-testid=\"x\"]") = true := by
    decide
  have hw1 : withinSevenDays 4 (rbRecord "h1" 1) = true := by
    rw [withinSevenDays]
    exact decide_eq_true (by norm_num [rbRecord, mkHealingRecord])
  have hw2 : withinSevenDays 4 (rbRecord "h2" 2) = true := by
    rw [withinSevenDays]
    exact decide_eq_true (by norm_num [rbRecord, mkHealingRecord])
  have hw3 : withinSevenDays 4 (rbRecord "h3" 3) = true := by
    rw [withinSevenDays]
    exact decide_eq_true (by norm_num [rbRecord, mkHealingRecord])
  have hs1 : (!(rbRecord "h1" 1).success) = true := by decide
  have hs2 : (!(rbRecord "h2" 2).success) = true := by decide
  have hs3 : (!(rbRecord "h3" 3).success) = true := by decide
  have hrb : rbState3.config.rollbackAfterFailures = 3 := rfl
  have hreason : ("Auto-rollback after " ++ toString (3 : Nat) ++ " failures")
      = "Auto-rollback after 3 failures" := by decide
  have hupd2 : updateRecordInMap "h3"
      (fun r => { r with rollback := some (4, "Auto-rollback after 3 failures") })
      rbState3.healingHistory = some rbState4.healingHistory := rfl
  simp only [recordHealingResult, hfind, hupd1, Option.getD_some,
    Bool.false_eq_true, if_false, horig, hurl, hloc, halo,
    List.filter_cons, List.filter_nil, hm1, hm2, hm3, hw1, hw2, hw3,
    hs1, hs2, hs3, beq_self_eq_true, if_true, List.length_cons, List.length_nil,
    hrb, hreason, hupd2]
  rfl

/-- C2 (code bug evaluated on the failing input): three auto-heals of the same context each select the testid locator with confidence 0.9; the third failure report transitions the third record to rolled-back (three recent failures within seven days reach rollbackAfterFailures); yet a fourth autoHeal call for the same context returns the exact same healed locator string, because the unreliable-locator list written on rollback is never consulted by generateAlternativeLocators. -/
theorem aiAutoHeal_resuggests_after_rollback :
    autoHealLocator (fun q => q) rbState0 1 "h1" "#old" rbElement "u" "gone"
      = .ok (⟨"[data-testid=\"x\"]", 0.9, true, false⟩, rbState1) ∧
    autoHealLocator (fun q => q) rbState1 2 "h2" "#old" rbElement "u" "gone"
      = .ok (⟨"[data-testid=\"x\"]", 0.9, true, false⟩, rbState2) ∧
    autoHealLocator (fun q => q) rbState2 3 "h3" "#old" rbElement "u" "gone"
      = .ok (⟨"[data-testid=\"x\"]", 0.9, true, false⟩, rbState3) ∧
    recordHealingResult rbState3 4 "h3" false = .ok rbState4 ∧
    (findHealingRecord rbState4.healingHistory "h3").map (fun r => r.rollback.isSome)
      = some true ∧
    (autoHealLocator (fun q => q) rbState4 5 "h4" "#old" rbElement "u" "gone").map
      (fun p => p.1.healedLocator) = .ok "[data-testid=\"x\"]" := by
  refine ⟨rbHeal1, rbHeal2, rbHeal3, rbOutcome, rfl, ?_⟩
  have hh : historyOf rbState4 "#old" "u"
      = [rbRecord "h1" 1, rbRecord "h2" 2, rbRolled] := rfl
  have halts : generateAlternativeLocators rbElement =
      [⟨"[data-testid=\"x\"]", "testid"⟩, ⟨"/button[0]", "xpath"⟩] := by decide
  have hen : (!rbState4.config.enabled) = false := by decide
  rw [autoHealLocator, hen]
  simp only [Bool.false_eq_true, if_false]
  rw [hh, halts]
  simp only [autoHealLoop,
    rbFc rbState4.mlState rfl [rbRecord "h1" 1, rbRecord "h2" 2, rbRolled] (by decide)]
  rw [if_pos (by norm_num [rbState4, rbConfig] :
    rbState4.config.confidenceThreshold ≤ (0.9 : ℚ))]
  rfl
